import Mathlib

/-!
# Hit-the-token: a shallow embedding of token.c

The program is a reflex game for an AVR board running uC/OS-II.  Five tasks
(WatchdogTask, CdsTask, LedTask, FndTask, PauseTask) share the global Level,
the two switch latches Sw1 and Sw2, the LED register PORTA, a mailbox, a
message queue and an event flag group.

Modelling conventions.

* INT8U values are natural numbers; every C operation that can leave the
  range 0..255 is followed by an explicit reduction modulo 256.
* One step of a task is one pass through the body of its endless loop.
* What the interrupt routines and the other tasks do between two passes of
  LedTask is an explicit input of the step (structure Input).
* A read past the end of a constant table is undefined in C; the step then
  returns none.
* OSTimeDly calls and port writes are recorded in a trace; busy waits
  (_delay_us, _delay_ms) are not recorded.
-/

namespace HitTheToken

/-! ## Constants of token.c -/

def MSG_QUEUE_SIZE : Nat := 6
def CDS_VALUE : Nat := 871
def DOT : Nat := 0x80
def BLANK : Nat := 0x00
def BUF_SIZE : Nat := 16
def PADDING : Nat := 3
def ON : Nat := 1
def OFF : Nat := 0
def INITIAL_LEVEL : Nat := 1
def CLEAR_LEVEL : Nat := 10
def BRIGHT : Nat := 1
def DARK : Nat := 0
def DEADLINE : Nat := 3
def SLIDE_FAST : Nat := 20
def SLIDE_SLOW : Nat := 40
def START_LEVEL : Nat := 1
def INITIAL_LIFE : Nat := 5
/-- The macro body is (11 - START_LEVEL) * 2; its only use is the plain
assignment speed = INITIAL_SPEED, where the missing parentheses do not matter. -/
def INITIAL_SPEED : Nat := (11 - START_LEVEL) * 2
def CYCLE_BEGIN : Nat := 0
def CYCLE_END : Nat := 15
def ROUND_INTERVAL : Nat := 300
def PAUSE_INTERVAL : Nat := 10

/-- LED order (7, 6, ..., 1, 0, 1, ..., 6, 7). -/
def Order : List Nat :=
  [0x80, 0x40, 0x20, 0x10, 0x08, 0x04, 0x02, 0x01, 0x02, 0x04, 0x08, 0x10, 0x20, 0x40, 0x80]

/-- Initial contents of the global LevelDisp, the text Lv.00 . -/
def LevelDispInit : List Nat := [0x38, 0x1C + DOT, 0x3f, 0x3f]
def LifeDisp : List Nat := [0x38, 0x06, 0x71, 0x79]
def ClearDisp : List Nat := [0x39, 0x38, 0x79, 0x77, 0x50]
def OverDisp : List Nat := [0x5C, 0x1C, 0x79, 0x50]
def PauseDisp : List Nat := [0x73, 0x77, 0x3E, 0x6D, 0x79]
def Digit : List Nat := [0x3f, 0x06, 0x5b, 0x4f, 0x66, 0x6d, 0x7d, 0x27, 0x7f, 0x6f]
def Fnd_sel : List Nat := [0x08, 0x04, 0x02, 0x01]

/-! ## 8-bit arithmetic -/

/-- Conversion of a C int to INT8U. -/
def toU8 (z : Int) : Nat := (z % 256).toNat

/-- The INT8U increment x++ . -/
def u8inc (x : Nat) : Nat := (x + 1) % 256

/-- The INT8U decrement --x : 0 wraps to 255. -/
def u8dec (x : Nat) : Nat := (x + 255) % 256

/-! ## State, inputs and traces -/

/-- What WatchdogTask is doing: waiting on the mailbox in its main loop, or
caught for ever in one of its two inner while (1) loops. -/
inductive Mode where
  | running
  | cleared
  | over
  deriving DecidableEq, Repr

/-- An externally visible action of a task. -/
inductive Ev where
  | portA (v : Nat)
  | portC (v : Nat)
  | portG (v : Nat)
  | dly (ticks : Nat)
  deriving DecidableEq, Repr

/-- The globals of token.c together with the locals of LedTask and
WatchdogTask that survive from one pass of their loops to the next. -/
structure Game where
  /-- Global Level. -/
  Level : Nat
  /-- Global Sw1, the latch of the game button. -/
  Sw1 : Nat
  /-- Global Sw2, the pause switch. -/
  Sw2 : Nat
  /-- LED register. -/
  PORTA : Nat
  /-- Bit 0x01 of FlagGrp: CdsTask saw the light go dark. -/
  flagDark : Bool
  /-- Bit 0x10 of FlagGrp: CdsTask saw the light go bright. -/
  flagBright : Bool
  /-- Global LevelDisp. -/
  LevelDisp : List Nat
  /-- Number of entries waiting in MQueue; every entry is the address of the
  send buffer of WatchdogTask. -/
  MQueue : Nat
  /-- LedTask local orderIdx. -/
  orderIdx : Nat
  /-- LedTask local token. -/
  token : Nat
  /-- LedTask local left_time. -/
  left_time : Nat
  /-- LedTask local life. -/
  life : Nat
  /-- LedTask local speed. -/
  speed : Nat
  /-- LedTask local brightness. -/
  brightness : Nat
  /-- Where WatchdogTask is. -/
  mode : Mode
  /-- WatchdogTask local send. -/
  send : List Nat
  deriving DecidableEq, Repr

/-- What happened between two passes of LedTask. -/
structure Input where
  /-- INT4 fired: the game button was pushed. -/
  press : Bool
  /-- INT5 fired an odd number of times: the pause switch was toggled. -/
  pause : Bool
  /-- CdsTask posted flag 0x01. -/
  dark : Bool
  /-- CdsTask posted flag 0x10. -/
  bright : Bool
  /-- FndTask or PauseTask wrote this value to PORTA last. -/
  porta : Option Nat
  /-- Value that rand() returns if this pass calls it. -/
  rand : Nat
  deriving DecidableEq, Repr

/-- Result of one pass of the loop of LedTask. -/
structure LedResult where
  /-- State at the end of the pass. -/
  st : Game
  /-- State at the call OSMboxPost(Mbox, &life), when the pass makes one. -/
  post : Option Game
  /-- Port writes and OSTimeDly calls of the pass, in program order. -/
  tr : List Ev
  deriving DecidableEq, Repr

/-- Result of one pass of the loop of FndTask. -/
structure FndResult where
  st : Game
  tr : List Ev
  deriving DecidableEq, Repr

/-- Result of a call of slideFnd. -/
structure SlideResult where
  /-- Stores into the local array slide, in program order, as pairs of index
  and byte.  The array has BUF_SIZE cells. -/
  stores : List (Nat × Nat)
  /-- Port writes, in program order. -/
  tr : List Ev
  deriving DecidableEq, Repr

/-! ## Interrupt routines and the environment -/

/-- ISR(INT4_vect).  The routine also waits (_delay_ms(10), OSTimeDly(1));
the waits do not change the state kept here. -/
def isrInt4 (s : Game) : Game := { s with Sw1 := ON }

/-- ISR(INT5_vect).  The routine also waits (_delay_ms(10), OSTimeDly(1));
the waits do not change the state kept here. -/
def isrInt5 (s : Game) : Game := { s with Sw2 := s.Sw2 ^^^ 0x01 }

/-- The two OSFlagPost calls of CdsTask. -/
def cdsPost (s : Game) (dark bright : Bool) : Game :=
  { s with flagDark := s.flagDark || dark, flagBright := s.flagBright || bright }

/-- One pass of the loop of CdsTask: value is what read_adc returns and
b the local brightness, which starts at 255 (the INT8U conversion of -1).
A flag is posted only when the classification changes. -/
def cdsTick (s : Game) (b value : Nat) : Game × Nat :=
  if value < CDS_VALUE then
    if b ≠ DARK then (cdsPost s true false, DARK) else (s, b)
  else
    if b ≠ BRIGHT then (cdsPost s false true, BRIGHT) else (s, b)

/-- Effect of the environment between two passes of LedTask. -/
def env (s : Game) (x : Input) : Game :=
  let s := if x.press then isrInt4 s else s
  let s := if x.pause then isrInt5 s else s
  let s := cdsPost s x.dark x.bright
  match x.porta with
  | none => s
  | some v => { s with PORTA := v }

/-! ## Functions of token.c -/

/-- The function getRandomToken, with r the value returned by rand(). -/
def getRandomToken (r : Nat) : Nat := (0x01 <<< (r % 8)) % 256

/-- The function displayFnd: four pairs of writes to PORTC and PORTG. -/
def displayFnd (fnd : Nat → Nat) : List Ev :=
  (List.range 4).flatMap fun pos => [Ev.portC (fnd pos), Ev.portG (Fnd_sel.getD pos 0)]

/-- Contents of cell k of an array after the given stores (0 when the cell
was never written). -/
def cell (stores : List (Nat × Nat)) (k : Nat) : Nat :=
  match stores.reverse.find? (fun p => p.1 == k) with
  | some p => p.2
  | none => 0

/-- The function slideFnd. -/
def slideFnd (str : List Nat) (len time : Nat) : SlideResult :=
  let newlen := (len + PADDING * 2) % 256
  if newlen > BUF_SIZE then ⟨[], []⟩
  else
    let zero := (List.range newlen).map fun i => (i, 0)
    let copy := (List.range len).map fun i => (i + PADDING, str.getD i 0)
    let stores := zero ++ copy
    let steps := (List.range ((newlen : Int) - (PADDING : Int)).toNat).flatMap fun i =>
      Ev.portA ((0x01 <<< i) % 256) ::
        (List.replicate time (displayFnd fun pos => cell stores (i + pos))).flatten
    ⟨stores, steps⟩

/-- One pass of the loop of PauseTask. -/
def pauseTick : SlideResult := slideFnd PauseDisp PauseDisp.length SLIDE_SLOW

/-! ## LedTask -/

/-- Initial conditions of LedTask, set before its loop; r is the value of
the first call of rand(). -/
def ledInit (s : Game) (r : Nat) : Game :=
  { s with
    orderIdx := CYCLE_BEGIN
    token := getRandomToken r
    left_time := DEADLINE
    life := INITIAL_LIFE
    speed := INITIAL_SPEED
    brightness := BRIGHT }

/-- First part of the loop of LedTask: the two event flags are accepted and
consumed. -/
def ledFlags (s : Game) : Game :=
  let s := if s.flagDark then { s with brightness := DARK, flagDark := false } else s
  if s.flagBright then { s with brightness := BRIGHT, flagBright := false } else s

/-- Branch Sw1 == OFF of LedTask, after the read o of Order[orderIdx]. -/
def ledSweep (s : Game) (o r : Nat) : LedResult :=
  let s := { s with PORTA := o ||| s.token, orderIdx := u8inc s.orderIdx }
  let tr := [Ev.portA s.PORTA]
  let dark := decide (s.brightness = DARK)
  let s := if dark then { s with PORTA := s.PORTA ^^^ 0xFF } else s
  let tr := if dark then tr ++ [Ev.portA s.PORTA] else tr
  if s.orderIdx = CYCLE_END then
    let s := { s with orderIdx := CYCLE_BEGIN + 1 }
    let s := { s with left_time := u8dec s.left_time }
    if s.left_time = 0 then
      let s := { s with life := u8dec s.life }
      let p := s
      let s := { s with left_time := DEADLINE, orderIdx := CYCLE_BEGIN }
      let s := { s with token := getRandomToken r }
      ⟨s, some p, tr ++ [Ev.dly ROUND_INTERVAL, Ev.dly s.speed]⟩
    else ⟨s, none, tr ++ [Ev.dly s.speed]⟩
  else ⟨s, none, tr ++ [Ev.dly s.speed]⟩

/-- The three blinks after a hit. -/
def blink : List Ev :=
  (List.replicate 3
    [Ev.portA 0xFF, Ev.dly (ROUND_INTERVAL / 6), Ev.portA 0x00, Ev.dly (ROUND_INTERVAL / 6)]).flatten

/-- Branch Sw1 clicked of LedTask. -/
def ledClick (s : Game) (r : Nat) : LedResult :=
  if s.PORTA = s.token ∨ s.PORTA = s.token ^^^ 0xFF then
    let s := { s with Level := u8inc s.Level }
    let s := { s with speed := toU8 ((11 - (s.Level : Int)) * 2) }
    let s := { s with orderIdx := CYCLE_BEGIN, left_time := DEADLINE }
    let s := { s with PORTA := 0x00 }
    let s := { s with token := getRandomToken r }
    let s := { s with Sw1 := OFF }
    ⟨s, none, blink ++ [Ev.dly s.speed]⟩
  else
    let s := { s with life := u8dec s.life }
    let p := s
    let s := { s with orderIdx := CYCLE_BEGIN, left_time := DEADLINE }
    let s := { s with token := getRandomToken r }
    let s := { s with Sw1 := OFF }
    ⟨s, some p, [Ev.dly ROUND_INTERVAL, Ev.dly s.speed]⟩

/-- One pass of the loop of LedTask; r is the value rand() returns if the
pass calls it. -/
def ledTick (s : Game) (r : Nat) : Option LedResult :=
  let s := ledFlags s
  if s.Sw2 = OFF then
    if s.Sw1 = OFF then
      match Order[s.orderIdx]? with
      | none => none
      | some o => some (ledSweep s o r)
    else some (ledClick s r)
  else some ⟨s, none, [Ev.dly PAUSE_INTERVAL]⟩

/-! ## WatchdogTask -/

/-- Prologue of WatchdogTask: the first five bytes of send are filled in;
x is whatever send[5] holds before the first message. -/
def watchdogInit (s : Game) (x : Nat) : Game :=
  { s with send := [LifeDisp.getD 0 0, LifeDisp.getD 1 0, LifeDisp.getD 2 0, LifeDisp.getD 3 0,
                    BLANK, x] }

/-- One pass of the main loop of WatchdogTask, after OSMboxPend returned
life.  The second component is the buffer handed to OSQPost, when the pass
calls it.  OSQPost does not block: a full queue drops the message. -/
def watchdogBody (s : Game) (life : Nat) : Option (Game × Option (List Nat)) :=
  let lev := s.Level
  if lev > CLEAR_LEVEL then some ({ s with mode := Mode.cleared }, none)
  else if life = 0 then some ({ s with mode := Mode.over }, none)
  else
    match Digit[life]? with
    | none => none
    | some d =>
      let s := { s with send := s.send.set 5 d }
      let s := if s.MQueue < MSG_QUEUE_SIZE then { s with MQueue := s.MQueue + 1 } else s
      some (s, some s.send)

/-- Port writes of one pass of the inner loop WatchdogTask is caught in. -/
def haltLoop : Mode → List Ev
  | Mode.running => []
  | Mode.cleared => (slideFnd ClearDisp ClearDisp.length SLIDE_SLOW).tr
  | Mode.over => displayFnd fun pos => OverDisp.getD pos 0

/-! ## FndTask -/

/-- One pass of the loop of FndTask. -/
def fndTick (s : Game) : Option FndResult :=
  if s.Sw2 = OFF then
    if s.MQueue = 0 then
      let lev := s.Level
      match Digit[lev / 10]?, Digit[lev % 10]?, Digit[0]? with
      | some hi, some lo, some d0 =>
        let s := { s with LevelDisp := (s.LevelDisp.set 2 hi).set 3 lo }
        let s := if lev > CLEAR_LEVEL then
            { s with LevelDisp := (s.LevelDisp.set 2 d0).set 3 d0 }
          else s
        some ⟨s, displayFnd fun pos => s.LevelDisp.getD pos 0⟩
      | _, _, _ => none
    else
      let s := { s with MQueue := s.MQueue - 1 }
      let slide := slideFnd s.send MSG_QUEUE_SIZE SLIDE_FAST
      let s := { s with PORTA := 0x00 }
      some ⟨s, slide.tr ++ [Ev.portA 0xFF, Ev.portA 0x00]⟩
  else some ⟨s, [Ev.dly PAUSE_INTERVAL]⟩

/-! ## Runs -/

/-- State of the board after reset, before any task has run: the globals
have their initial values and the locals are not set yet. -/
def boot : Game :=
  { Level := INITIAL_LEVEL, Sw1 := 0, Sw2 := 0, PORTA := 0, flagDark := false,
    flagBright := false, LevelDisp := LevelDispInit, MQueue := 0, orderIdx := 0, token := 0,
    left_time := 0, life := 0, speed := 0, brightness := 0, mode := Mode.running, send := [] }

/-- State when LedTask enters its loop for the first time. -/
def start (r x : Nat) : Game := ledInit (watchdogInit boot x) r

/-- The pass of LedTask that starts in s is a hit. -/
def isHit (s : Game) : Bool :=
  decide (s.Sw2 = OFF) && !decide (s.Sw1 = OFF) &&
    (decide (s.PORTA = s.token) || decide (s.PORTA = s.token ^^^ 0xFF))

/-- The pass of LedTask that starts in s is a miss by a wrong press. -/
def isMiss (s : Game) : Bool :=
  decide (s.Sw2 = OFF) && !decide (s.Sw1 = OFF) &&
    !(decide (s.PORTA = s.token) || decide (s.PORTA = s.token ^^^ 0xFF))

/-- The pass of LedTask that starts in s ends the third sweep: time over. -/
def isTimeout (s : Game) : Bool :=
  decide (s.Sw2 = OFF) && decide (s.Sw1 = OFF) &&
    decide (u8inc s.orderIdx = CYCLE_END) && decide (u8dec s.left_time = 0)

/-- The pass of LedTask that starts in s costs a life. -/
def isLoss (s : Game) : Bool := isMiss s || isTimeout s

/-- A state reached by a run, with the number of hits and of lost lives
(misses and timeouts) on the way and the life values handed to the mailbox,
oldest first. -/
structure Tally where
  st : Game
  hits : Nat
  losses : Nat
  posts : List Nat
  deriving DecidableEq, Repr

/-- One more when the condition holds. -/
def bump (n : Nat) (b : Bool) : Nat := if b then n + 1 else n

/-- Life value passed by a pass of LedTask, as a list. -/
def posted (res : LedResult) : List Nat :=
  match res.post with
  | none => []
  | some p => [p.life]

/-- LedTask alone: the environment acts, then LedTask makes one pass. -/
def ledStep (t : Tally) (x : Input) : Option Tally :=
  match ledTick (env t.st x) x.rand with
  | none => none
  | some res =>
    some ⟨res.st, bump t.hits (isHit (env t.st x)), bump t.losses (isLoss (env t.st x)),
      t.posts ++ posted res⟩

/-- LedTask alone, over a sequence of inputs. -/
def ledRun (s : Game) (xs : List Input) : Option Tally :=
  xs.foldlM ledStep ⟨s, 0, 0, []⟩

/-- Modelled from the spec: the scheduling of LedTask and WatchdogTask by
uC/OS-II, whose code is not in token.c.  The spec (section 5) has a
preemptive scheduler with fixed, distinct priorities, a life hand-off that
the Supervisor takes before GameLogic goes on, and the cleared and the
game-over state as a permanent halt (also sections 4.2 and 9: terminal
states with no outgoing transition).  So here WatchdogTask, of priority 1
against 3 for LedTask, handles a life value as soon as LedTask posts it;
once it is caught in an inner loop no other task runs again, and LedTask
stays where it was, at its OSMboxPost call.  The bodies of the two tasks are
ledTick and watchdogBody, from token.c.  What the OSTimeDly(1) calls of the
interrupt routines do to a task caught in such a loop is a matter of the
scheduler and is not modelled. -/
def sysStep (t : Tally) (x : Input) : Option Tally :=
  if t.st.mode = Mode.running then
    match ledTick (env t.st x) x.rand with
    | none => none
    | some res =>
      let hits := bump t.hits (isHit (env t.st x))
      let losses := bump t.losses (isLoss (env t.st x))
      match res.post with
      | none => some ⟨res.st, hits, losses, t.posts⟩
      | some p =>
        match watchdogBody p p.life with
        | none => none
        | some (w, _) =>
          if w.mode = Mode.running then
            some ⟨{ res.st with send := w.send, MQueue := w.MQueue }, hits, losses,
              t.posts ++ [p.life]⟩
          else some ⟨w, hits, losses, t.posts ++ [p.life]⟩
  else some t

/-- LedTask and WatchdogTask together, over a sequence of inputs. -/
def sysRun (s : Game) (xs : List Input) : Option Tally :=
  xs.foldlM sysStep ⟨s, 0, 0, []⟩

/-- WatchdogTask receives one life value while the level does not change;
the second component collects the buffers handed to OSQPost. -/
def wdStep (a : Game × List (List Nat)) (life : Nat) : Option (Game × List (List Nat)) :=
  if a.1.mode = Mode.running then
    match watchdogBody a.1 life with
    | none => none
    | some (w, m) => some (w, a.2 ++ m.toList)
  else some a

/-- WatchdogTask receives a sequence of life values. -/
def wdRun (s : Game) (lives : List Nat) : Option (Game × List (List Nat)) :=
  lives.foldlM wdStep (s, [])

/-- What holds of every tally of a run of LedTask and WatchdogTask that
started with five lives and level l0. -/
def SysInv (l0 : Nat) (t : Tally) : Prop :=
  t.st.life + t.losses = INITIAL_LIFE ∧
  t.posts = (List.range t.losses).map (fun j => 4 - j) ∧
  t.st.Level = (l0 + t.hits) % 256 ∧
  (t.st.mode = Mode.running → 1 ≤ t.st.life ∧ t.st.orderIdx ≤ 14) ∧
  (t.losses = 0 → t.st.mode = Mode.running)

/-- Where WatchdogTask can be caught, in a run of LedTask with WatchdogTask:
in the game-over loop only with no life left and the level at most
CLEAR_LEVEL, in the cleared loop only with the level above CLEAR_LEVEL. -/
def SysMode (t : Tally) : Prop :=
  (t.st.mode = Mode.over → t.st.life = 0 ∧ t.st.Level ≤ CLEAR_LEVEL) ∧
  (t.st.mode = Mode.cleared → CLEAR_LEVEL < t.st.Level)

/-! ## Concrete inputs -/

/-- Nothing happens between two passes; rand() would return r. -/
def quiet (r : Nat) : Input := ⟨false, false, false, false, none, r⟩

/-- The game button is pushed between two passes; rand() would return r. -/
def click (r : Nat) : Input := ⟨true, false, false, false, none, r⟩

/-- With token 0x80 and the sweep at its first position: one pass that
lights the token, then a push of the button. -/
def hitRound : List Input := [quiet 7, click 7]

/-- Ten rounds, each won at the first position of the sweep. -/
def tenHits : List Input := (List.replicate 10 hitRound).flatten

/-- Eleven rounds, each won at the first position of the sweep. -/
def elevenHits : List Input := (List.replicate 11 hitRound).flatten

/-- Four pushes of the button, one per pass. -/
def fourClicks : List Input := List.replicate 4 (click 7)

/-- Six pushes of the button, one per pass. -/
def sixClicks : List Input := List.replicate 6 (click 7)

/-- The state at the start of a game, with the token 0x80 lit by the first
pass of the sweep and the game button latched. -/
def litAndClicked : Game := { start 7 0 with PORTA := 0x80, Sw1 := ON }

/-- The state at the start of a game, paused, with a dark flag pending. -/
def pausedDark : Game := { start 7 0 with Sw2 := ON, flagDark := true }

/-- Forty-three passes during which nothing happens. -/
def quietRound : List Input := List.replicate 43 (quiet 7)

/-- What holds of the tally n passes into a round in which no button is
pushed, n at most 42, when the round started with life l: nothing was posted,
and the sweep index and the deadline are where the sweep of n passes puts
them. -/
def Sweeping (l n : Nat) (t : Tally) : Prop :=
  t.st.Sw1 = OFF ∧ t.st.Sw2 = OFF ∧ t.st.life = l ∧ t.posts = [] ∧ t.losses = 0 ∧
  (n < 15 → t.st.orderIdx = n ∧ t.st.left_time = 3) ∧
  (15 ≤ n → n < 29 → t.st.orderIdx = n - 14 ∧ t.st.left_time = 2) ∧
  (29 ≤ n → t.st.orderIdx = n - 28 ∧ t.st.left_time = 1)

/-! ## Basic facts -/

theorem u8inc_ne (x : Nat) : u8inc x ≠ x := by
  unfold u8inc
  omega

theorem u8dec_of_pos (x : Nat) (h0 : 0 < x) (h1 : x ≤ 256) : u8dec x = x - 1 := by
  unfold u8dec
  omega

@[simp] theorem ledFlags_Sw1 (s : Game) : (ledFlags s).Sw1 = s.Sw1 := by
  unfold ledFlags; dsimp only; split_ifs <;> rfl

@[simp] theorem ledFlags_Sw2 (s : Game) : (ledFlags s).Sw2 = s.Sw2 := by
  unfold ledFlags; dsimp only; split_ifs <;> rfl

@[simp] theorem ledFlags_PORTA (s : Game) : (ledFlags s).PORTA = s.PORTA := by
  unfold ledFlags; dsimp only; split_ifs <;> rfl

@[simp] theorem ledFlags_token (s : Game) : (ledFlags s).token = s.token := by
  unfold ledFlags; dsimp only; split_ifs <;> rfl

@[simp] theorem ledFlags_Level (s : Game) : (ledFlags s).Level = s.Level := by
  unfold ledFlags; dsimp only; split_ifs <;> rfl

@[simp] theorem ledFlags_life (s : Game) : (ledFlags s).life = s.life := by
  unfold ledFlags; dsimp only; split_ifs <;> rfl

@[simp] theorem ledFlags_orderIdx (s : Game) : (ledFlags s).orderIdx = s.orderIdx := by
  unfold ledFlags; dsimp only; split_ifs <;> rfl

@[simp] theorem ledFlags_left_time (s : Game) : (ledFlags s).left_time = s.left_time := by
  unfold ledFlags; dsimp only; split_ifs <;> rfl

@[simp] theorem ledFlags_speed (s : Game) : (ledFlags s).speed = s.speed := by
  unfold ledFlags; dsimp only; split_ifs <;> rfl

@[simp] theorem ledFlags_mode (s : Game) : (ledFlags s).mode = s.mode := by
  unfold ledFlags; dsimp only; split_ifs <;> rfl

@[simp] theorem ledFlags_send (s : Game) : (ledFlags s).send = s.send := by
  unfold ledFlags; dsimp only; split_ifs <;> rfl

@[simp] theorem ledFlags_MQueue (s : Game) : (ledFlags s).MQueue = s.MQueue := by
  unfold ledFlags; dsimp only; split_ifs <;> rfl

@[simp] theorem ledFlags_LevelDisp (s : Game) : (ledFlags s).LevelDisp = s.LevelDisp := by
  unfold ledFlags; dsimp only; split_ifs <;> rfl

/-- On the fifteen positions of the sweep and the eight one-hot tokens, the
test of the click branch succeeds exactly when the indicator is on the
token, whether the pattern was written plain or inverted. -/
theorem pattern_test :
    ∀ o ∈ Order, ∀ k < 8,
      ((o ||| 1 <<< k = 1 <<< k ∨ o ||| 1 <<< k = (1 <<< k) ^^^ 0xFF) ↔ o = 1 <<< k) ∧
      (((o ||| 1 <<< k) ^^^ 0xFF = 1 <<< k ∨
          (o ||| 1 <<< k) ^^^ 0xFF = (1 <<< k) ^^^ 0xFF) ↔ o = 1 <<< k) := by
  decide

theorem ledTick_click (s : Game) (r : Nat) (h2 : s.Sw2 = OFF) (h1 : s.Sw1 ≠ OFF) :
    ledTick s r = some (ledClick (ledFlags s) r) := by
  simp [ledTick, h2, h1]

theorem ledClick_hit (s : Game) (r : Nat) (h : s.PORTA = s.token ∨ s.PORTA = s.token ^^^ 0xFF) :
    ledClick s r =
      ⟨{ s with Level := u8inc s.Level, speed := toU8 ((11 - (u8inc s.Level : Int)) * 2),
                orderIdx := CYCLE_BEGIN, left_time := DEADLINE, PORTA := 0x00,
                token := getRandomToken r, Sw1 := OFF },
        none, blink ++ [Ev.dly (toU8 ((11 - (u8inc s.Level : Int)) * 2))]⟩ := by
  unfold ledClick
  rw [if_pos h]

theorem ledClick_miss (s : Game) (r : Nat)
    (h : ¬ (s.PORTA = s.token ∨ s.PORTA = s.token ^^^ 0xFF)) :
    ledClick s r =
      ⟨{ s with life := u8dec s.life, orderIdx := CYCLE_BEGIN, left_time := DEADLINE,
                token := getRandomToken r, Sw1 := OFF },
        some { s with life := u8dec s.life },
        [Ev.dly ROUND_INTERVAL, Ev.dly s.speed]⟩ := by
  unfold ledClick
  rw [if_neg h]

/-- C1: when PORTA holds the pattern Order[i] | token that LedTask writes
at sweep index i for a one-hot token (inverted or not, b being the brightness
at the time of the write), the test of the click branch succeeds exactly
when Order[i] is the token; the pass with the button latched then is a hit
(Level incremented, life kept, nothing posted) exactly in that case, and a
miss (life decremented and posted, Level kept) exactly in the other. -/
theorem C1_press_is_hit_iff_indicator_on_token (s : Game) (r i k o b : Nat)
    (ho : Order[i]? = some o) (hk : k < 8) (htok : s.token = 1 <<< k)
    (hporta : s.PORTA = if b = DARK then (o ||| s.token) ^^^ 0xFF else o ||| s.token)
    (hsw2 : s.Sw2 = OFF) (hsw1 : s.Sw1 = ON) :
    ((s.PORTA = s.token ∨ s.PORTA = s.token ^^^ 0xFF) ↔ o = s.token) ∧
    ∃ res, ledTick s r = some res ∧
      ((res.post = none ∧ res.st.Level = u8inc s.Level ∧ res.st.life = s.life) ↔
        o = s.token) ∧
      ((res.post.map Game.life = some (u8dec s.life) ∧ res.st.life = u8dec s.life ∧
          res.st.Level = s.Level) ↔ o ≠ s.token) := by
  have hmem : o ∈ Order := List.getElem?_mem ho
  have hp := pattern_test o hmem k hk
  have htest : (s.PORTA = s.token ∨ s.PORTA = s.token ^^^ 0xFF) ↔ o = s.token := by
    rw [hporta, htok]
    split_ifs
    · exact hp.2
    · exact hp.1
  have h1 : s.Sw1 ≠ OFF := by rw [hsw1]; decide
  refine ⟨htest, ledClick (ledFlags s) r, ledTick_click s r hsw2 h1, ?_⟩
  by_cases hot : o = s.token
  · have hh : (ledFlags s).PORTA = (ledFlags s).token ∨
        (ledFlags s).PORTA = (ledFlags s).token ^^^ 0xFF := by
      simpa using htest.mpr hot
    rw [ledClick_hit _ r hh]
    simp [hot]
  · have hh : ¬ ((ledFlags s).PORTA = (ledFlags s).token ∨
        (ledFlags s).PORTA = (ledFlags s).token ^^^ 0xFF) := by
      simpa using fun h => hot (htest.mp h)
    rw [ledClick_miss _ r hh]
    simp [hot]

/-! ## One pass of LedTask, case by case -/

theorem ledTick_paused (s : Game) (r : Nat) (h2 : s.Sw2 ≠ OFF) :
    ledTick s r = some ⟨ledFlags s, none, [Ev.dly PAUSE_INTERVAL]⟩ := by
  simp [ledTick, h2]

theorem ledTick_sweep (s : Game) (r o : Nat) (h2 : s.Sw2 = OFF) (h1 : s.Sw1 = OFF)
    (ho : Order[s.orderIdx]? = some o) :
    ledTick s r = some (ledSweep (ledFlags s) o r) := by
  simp [ledTick, h2, h1, ho]

theorem order_lookup (i : Nat) (h : i ≤ 14) : ∃ o, Order[i]? = some o := by
  have hlt : i < Order.length := by
    simp only [Order, List.length_cons, List.length_nil]
    omega
  exact ⟨Order[i], List.getElem?_eq_getElem hlt⟩

theorem order_lookup_bound (i o : Nat) (h : Order[i]? = some o) : i ≤ 14 := by
  have hlt : i < Order.length := (List.getElem?_eq_some.mp h).1
  simp only [Order, List.length_cons, List.length_nil] at hlt
  omega

theorem ledSweep_frame (s : Game) (o r : Nat) :
    (ledSweep s o r).st.Level = s.Level ∧ (ledSweep s o r).st.mode = s.mode ∧
    (ledSweep s o r).st.send = s.send ∧ (ledSweep s o r).st.MQueue = s.MQueue ∧
    (ledSweep s o r).st.Sw1 = s.Sw1 ∧ (ledSweep s o r).st.Sw2 = s.Sw2 ∧
    (ledSweep s o r).st.speed = s.speed ∧
    (ledSweep s o r).st.PORTA =
      (if s.brightness = DARK then (o ||| s.token) ^^^ 0xFF else o ||| s.token) := by
  unfold ledSweep
  dsimp only
  split_ifs <;> simp_all

theorem ledSweep_inside (s : Game) (o r : Nat) (h : u8inc s.orderIdx ≠ CYCLE_END) :
    (ledSweep s o r).post = none ∧ (ledSweep s o r).st.orderIdx = u8inc s.orderIdx ∧
    (ledSweep s o r).st.left_time = s.left_time ∧ (ledSweep s o r).st.life = s.life ∧
    (ledSweep s o r).st.token = s.token := by
  unfold ledSweep
  dsimp only
  split_ifs <;> simp_all

theorem ledSweep_turn (s : Game) (o r : Nat) (h : u8inc s.orderIdx = CYCLE_END)
    (ht : u8dec s.left_time ≠ 0) :
    (ledSweep s o r).post = none ∧ (ledSweep s o r).st.orderIdx = CYCLE_BEGIN + 1 ∧
    (ledSweep s o r).st.left_time = u8dec s.left_time ∧ (ledSweep s o r).st.life = s.life ∧
    (ledSweep s o r).st.token = s.token := by
  unfold ledSweep
  dsimp only
  split_ifs <;> simp_all

theorem ledSweep_timeout (s : Game) (o r : Nat) (h : u8inc s.orderIdx = CYCLE_END)
    (ht : u8dec s.left_time = 0) :
    (∃ p, (ledSweep s o r).post = some p ∧ p.life = u8dec s.life ∧ p.Level = s.Level ∧
      p.mode = s.mode ∧ p.send = s.send ∧ p.MQueue = s.MQueue) ∧
    (ledSweep s o r).st.orderIdx = CYCLE_BEGIN ∧
    (ledSweep s o r).st.left_time = DEADLINE ∧ (ledSweep s o r).st.life = u8dec s.life ∧
    (ledSweep s o r).st.token = getRandomToken r := by
  unfold ledSweep
  dsimp only
  split_ifs <;> simp_all

/-- Summary of one pass of LedTask from a state whose sweep index is in
range: the pass is defined, and Level, life, the mailbox post and the two
counters of the sweep change as the classification of the pass says. -/
theorem ledTick_spec (e : Game) (r : Nat) (hidx : e.orderIdx ≤ 14) :
    ∃ res, ledTick e r = some res ∧
      res.st.Level = (if isHit e then u8inc e.Level else e.Level) ∧
      res.st.life = (if isLoss e then u8dec e.life else e.life) ∧
      (isLoss e = false → res.post = none) ∧
      (isLoss e = true → ∃ p, res.post = some p ∧ p.life = u8dec e.life ∧ p.Level = e.Level ∧
        p.mode = e.mode ∧ p.send = e.send ∧ p.MQueue = e.MQueue) ∧
      res.st.orderIdx ≤ 14 ∧
      (1 ≤ e.left_time ∧ e.left_time ≤ 3 → 1 ≤ res.st.left_time ∧ res.st.left_time ≤ 3) ∧
      res.st.mode = e.mode ∧ res.st.send = e.send ∧ res.st.MQueue = e.MQueue ∧
      (isHit e = true → isLoss e = false) := by
  by_cases h2 : e.Sw2 = OFF
  · by_cases h1 : e.Sw1 = OFF
    · obtain ⟨o, ho⟩ := order_lookup e.orderIdx hidx
      have ho2 : Order[(ledFlags e).orderIdx]? = some o := by simpa using ho
      refine ⟨_, ledTick_sweep e r o h2 h1 ho, ?_⟩
      have hf := ledSweep_frame (ledFlags e) o r
      have hhit : isHit e = false := by simp [isHit, h1]
      by_cases hend : u8inc e.orderIdx = CYCLE_END
      · by_cases ht : u8dec e.left_time = 0
        · have hloss : isLoss e = true := by simp [isLoss, isMiss, isTimeout, h1, h2, hend, ht]
          have hs := ledSweep_timeout (ledFlags e) o r (by simpa using hend) (by simpa using ht)
          obtain ⟨⟨p, hp1, hp2, hp3, hp4, hp5, hp6⟩, hs2, hs3, hs4, -⟩ := hs
          simp only [ledFlags_life, ledFlags_Level, ledFlags_mode, ledFlags_send,
            ledFlags_MQueue] at hp2 hp3 hp4 hp5 hp6 hs4 hf
          refine ⟨?_, ?_, ?_, ?_, ?_, ?_, ?_, ?_, ?_, ?_⟩
          · simp [hhit, hf.1]
          · simp [hloss, hs4]
          · simp [hloss]
          · intro _; exact ⟨p, hp1, hp2, hp3, hp4, hp5, hp6⟩
          · rw [hs2]; simp [CYCLE_BEGIN]
          · intro _; rw [hs3]; simp [DEADLINE]
          · exact hf.2.1
          · exact hf.2.2.1
          · exact hf.2.2.2.1
          · simp [hhit]
        · have hloss : isLoss e = false := by simp [isLoss, isMiss, isTimeout, h1, ht]
          have hs := ledSweep_turn (ledFlags e) o r (by simpa using hend) (by simpa using ht)
          obtain ⟨hs1, hs2, hs3, hs4, -⟩ := hs
          simp only [ledFlags_life, ledFlags_Level, ledFlags_mode, ledFlags_send,
            ledFlags_MQueue, ledFlags_left_time] at hs3 hs4 hf
          refine ⟨?_, ?_, ?_, ?_, ?_, ?_, ?_, ?_, ?_, ?_⟩
          · simp [hhit, hf.1]
          · simp [hloss, hs4]
          · intro _; exact hs1
          · simp [hloss]
          · rw [hs2]; simp [CYCLE_BEGIN]
          · intro hb
            rw [hs3]
            unfold u8dec at ht ⊢
            omega
          · exact hf.2.1
          · exact hf.2.2.1
          · exact hf.2.2.2.1
          · simp [hhit]
      · have hloss : isLoss e = false := by simp [isLoss, isMiss, isTimeout, h1, hend]
        have hs := ledSweep_inside (ledFlags e) o r (by simpa using hend)
        obtain ⟨hs1, hs2, hs3, hs4, -⟩ := hs
        simp only [ledFlags_life, ledFlags_Level, ledFlags_mode, ledFlags_send,
          ledFlags_MQueue, ledFlags_left_time, ledFlags_orderIdx] at hs2 hs3 hs4 hf
        refine ⟨?_, ?_, ?_, ?_, ?_, ?_, ?_, ?_, ?_, ?_⟩
        · simp [hhit, hf.1]
        · simp [hloss, hs4]
        · intro _; exact hs1
        · simp [hloss]
        · rw [hs2]
          unfold u8inc CYCLE_END at hend
          unfold u8inc
          omega
        · intro hb; rw [hs3]; exact hb
        · exact hf.2.1
        · exact hf.2.2.1
        · exact hf.2.2.2.1
        · simp [hhit]
    · refine ⟨_, ledTick_click e r h2 h1, ?_⟩
      by_cases hm : e.PORTA = e.token ∨ e.PORTA = e.token ^^^ 0xFF
      · have hhit : isHit e = true := by
          rcases hm with hm | hm <;> simp [isHit, h1, h2, hm]
        have hloss : isLoss e = false := by
          rcases hm with hm | hm <;> simp [isLoss, isMiss, isTimeout, h1, h2, hm]
        rw [ledClick_hit _ r (by simpa using hm)]
        simp [hhit, hloss, CYCLE_BEGIN, DEADLINE]
      · have hhit : isHit e = false := by
          simp only [not_or] at hm
          simp [isHit, h1, h2, hm.1, hm.2]
        have hloss : isLoss e = true := by
          simp only [not_or] at hm
          simp [isLoss, isMiss, isTimeout, h1, h2, hm.1, hm.2]
        rw [ledClick_miss _ r (by simpa using hm)]
        simp [hhit, hloss, CYCLE_BEGIN, DEADLINE]
  · refine ⟨_, ledTick_paused e r h2, ?_⟩
    have hhit : isHit e = false := by simp [isHit, h2]
    have hloss : isLoss e = false := by simp [isLoss, isMiss, isTimeout, h2]
    simp [hhit, hloss]
    exact hidx

/-! ## The environment -/

theorem env_frame (s : Game) (x : Input) :
    (env s x).Level = s.Level ∧ (env s x).life = s.life ∧ (env s x).orderIdx = s.orderIdx ∧
    (env s x).left_time = s.left_time ∧ (env s x).mode = s.mode ∧ (env s x).send = s.send ∧
    (env s x).MQueue = s.MQueue ∧ (env s x).token = s.token ∧ (env s x).speed = s.speed := by
  unfold env isrInt4 isrInt5 cdsPost
  dsimp only
  split <;> split_ifs <;> simp

theorem env_quiet (s : Game) (x : Input) (hp : x.press = false) (hq : x.pause = false) :
    (env s x).Sw1 = s.Sw1 ∧ (env s x).Sw2 = s.Sw2 := by
  unfold env isrInt4 isrInt5 cdsPost
  dsimp only
  split <;> simp [hp, hq]

/-! ## WatchdogTask, case by case -/

theorem watchdogBody_cleared (p : Game) (life : Nat) (h : CLEAR_LEVEL < p.Level) :
    watchdogBody p life = some ({ p with mode := Mode.cleared }, none) := by
  unfold watchdogBody
  simp [h]

theorem watchdogBody_over (p : Game) (h : p.Level ≤ CLEAR_LEVEL) :
    watchdogBody p 0 = some ({ p with mode := Mode.over }, none) := by
  unfold watchdogBody
  simp [Nat.not_lt.mpr h]

theorem watchdogBody_forward (p : Game) (life : Nat) (h : p.Level ≤ CLEAR_LEVEL)
    (h1 : 1 ≤ life) (h9 : life ≤ 9) :
    ∃ d, Digit[life]? = some d ∧
      watchdogBody p life =
        some ({ p with send := p.send.set 5 d,
                       MQueue := if p.MQueue < MSG_QUEUE_SIZE then p.MQueue + 1 else p.MQueue },
              some (p.send.set 5 d)) := by
  have hlt : life < Digit.length := by
    simp only [Digit, List.length_cons, List.length_nil]
    omega
  refine ⟨Digit[life], List.getElem?_eq_getElem hlt, ?_⟩
  unfold watchdogBody
  have h0 : life ≠ 0 := by omega
  simp only [gt_iff_lt, Nat.not_lt.mpr h, if_false, h0, List.getElem?_eq_getElem hlt]
  split_ifs <;> rfl

/-! ## Runs of LedTask and WatchdogTask together -/

theorem range_succ_map_sub (n : Nat) :
    (List.range (n + 1)).map (fun j => 4 - j) = (List.range n).map (fun j => 4 - j) ++ [4 - n] := by
  rw [List.range_succ, List.map_append]
  rfl

theorem sysStep_halted (t : Tally) (x : Input) (h : t.st.mode ≠ Mode.running) :
    sysStep t x = some t := by
  unfold sysStep
  rw [if_neg h]

theorem sysStep_inv (l0 : Nat) (t : Tally) (x : Input) (h : SysInv l0 t) :
    ∃ t', sysStep t x = some t' ∧ SysInv l0 t' := by
  by_cases hm : t.st.mode = Mode.running
  · obtain ⟨h1, h2, h3, h4, h5⟩ := h
    obtain ⟨hlife1, hidx⟩ := h4 hm
    obtain ⟨eL, elife, eidx, -, emode, -, -, -, -⟩ := env_frame t.st x
    obtain ⟨res, hres, hL, hlife, hnone, hsome, hidx2, -, hmode, -, -, hexcl⟩ :=
      ledTick_spec (env t.st x) x.rand (by rw [eidx]; exact hidx)
    unfold sysStep
    rw [if_pos hm, hres]
    dsimp only
    cases hloss : isLoss (env t.st x)
    · rw [hnone hloss]
      refine ⟨_, rfl, ?_⟩
      rw [hloss] at hlife
      simp only [Bool.false_eq_true, if_false] at hlife
      refine ⟨?_, ?_, ?_, ?_, ?_⟩
      · simp only [bump, Bool.false_eq_true, if_false]; rw [hlife, elife]; exact h1
      · simp only [bump, Bool.false_eq_true, if_false]; exact h2
      · show res.st.Level = (l0 + bump t.hits (isHit (env t.st x))) % 256
        rw [hL, eL, h3]
        cases isHit (env t.st x) <;> simp [bump, u8inc]
        omega
      · intro _
        show 1 ≤ res.st.life ∧ res.st.orderIdx ≤ 14
        rw [hlife, elife]
        exact ⟨hlife1, hidx2⟩
      · intro _
        show res.st.mode = Mode.running
        rw [hmode, emode, hm]
    · obtain ⟨p, hp, hplife, hpL, hpmode, -, -⟩ := hsome hloss
      have hhit : isHit (env t.st x) = false := by
        cases hh : isHit (env t.st x)
        · rfl
        · have := hexcl hh
          rw [hloss] at this
          exact absurd this (by decide)
      rw [hloss] at hlife
      simp only [if_true] at hlife
      simp only [INITIAL_LIFE] at h1
      have hdec : u8dec t.st.life = t.st.life - 1 := u8dec_of_pos _ hlife1 (by omega)
      rw [elife, hdec] at hplife hlife
      have hposts : t.posts ++ [p.life] =
          (List.range (bump t.losses true)).map (fun j => 4 - j) := by
        simp only [bump, if_true]
        rw [range_succ_map_sub, h2, hplife]
        congr 2
        omega
      rw [hp, hhit]
      dsimp only
      by_cases hlev : CLEAR_LEVEL < p.Level
      · rw [watchdogBody_cleared p _ hlev]
        refine ⟨_, rfl, ?_⟩
        refine ⟨?_, hposts, ?_, ?_, ?_⟩
        · simp only [bump, if_true, INITIAL_LIFE]; rw [hplife]; omega
        · simp only [bump, Bool.false_eq_true, if_false]; rw [hpL, eL, h3]
        · intro hc; exact absurd hc (by simp)
        · intro hc; simp [bump] at hc
      · have hlev2 : p.Level ≤ CLEAR_LEVEL := Nat.not_lt.mp hlev
        by_cases hz : p.life = 0
        · rw [hz, watchdogBody_over p hlev2]
          refine ⟨_, rfl, ?_⟩
          rw [← hz]
          refine ⟨?_, hposts, ?_, ?_, ?_⟩
          · simp only [bump, if_true, INITIAL_LIFE]; rw [hplife]; omega
          · simp only [bump, Bool.false_eq_true, if_false]; rw [hpL, eL, h3]
          · intro hc; exact absurd hc (by simp)
          · intro hc; simp [bump] at hc
        · obtain ⟨d, -, hw⟩ := watchdogBody_forward p p.life hlev2 (by omega) (by omega)
          rw [hw]
          simp only [hpmode, emode, hm, if_true]
          refine ⟨_, rfl, ?_⟩
          refine ⟨?_, hposts, ?_, ?_, ?_⟩
          · simp only [bump, if_true, INITIAL_LIFE]; rw [hlife]; omega
          · simp only [bump, Bool.false_eq_true, if_false]
            rw [hL, hhit]
            simp only [Bool.false_eq_true, if_false]
            rw [eL, h3]
          · intro _
            show 1 ≤ res.st.life ∧ res.st.orderIdx ≤ 14
            rw [hlife]
            exact ⟨by omega, hidx2⟩
          · intro hc; simp [bump] at hc
  · exact ⟨t, sysStep_halted t x hm, h⟩

theorem sysFold_inv (l0 : Nat) (xs : List Input) :
    ∀ t, SysInv l0 t → ∃ t', xs.foldlM sysStep t = some t' ∧ SysInv l0 t' := by
  induction xs with
  | nil => intro t h; exact ⟨t, rfl, h⟩
  | cons x xs ih =>
    intro t h
    obtain ⟨t1, h1, hi1⟩ := sysStep_inv l0 t x h
    obtain ⟨t2, h2, hi2⟩ := ih t1 hi1
    refine ⟨t2, ?_, hi2⟩
    rw [List.foldlM_cons, h1]
    exact h2

theorem sysInv_start (s : Game) (hlife : s.life = INITIAL_LIFE) (hmode : s.mode = Mode.running)
    (hidx : s.orderIdx ≤ 14) (hL : s.Level < 256) : SysInv s.Level ⟨s, 0, 0, []⟩ := by
  refine ⟨?_, ?_, ?_, ?_, ?_⟩
  · simpa using hlife
  · rfl
  · show s.Level = (s.Level + 0) % 256
    rw [Nat.add_zero, Nat.mod_eq_of_lt hL]
  · intro _; exact ⟨by rw [hlife]; decide, hidx⟩
  · intro _; exact hmode

theorem sysStep_loss_clears (t : Tally) (x : Input) (hm : t.st.mode = Mode.running)
    (hidx : t.st.orderIdx ≤ 14) (hlev : CLEAR_LEVEL < t.st.Level)
    (hloss : isLoss (env t.st x) = true) :
    ∃ t', sysStep t x = some t' ∧ t'.st.mode = Mode.cleared ∧ t'.st.Level = t.st.Level := by
  obtain ⟨eL, -, eidx, -, -, -, -, -, -⟩ := env_frame t.st x
  obtain ⟨res, hres, -, -, -, hsome, -, -, -, -, -, -⟩ :=
    ledTick_spec (env t.st x) x.rand (by rw [eidx]; exact hidx)
  obtain ⟨p, hp, -, hpL, -, -, -⟩ := hsome hloss
  unfold sysStep
  rw [if_pos hm, hres]
  dsimp only
  rw [hp]
  dsimp only
  rw [watchdogBody_cleared p _ (by rw [hpL, eL]; exact hlev)]
  refine ⟨_, rfl, rfl, ?_⟩
  show p.Level = t.st.Level
  rw [hpL, eL]

/-- One pass of LedTask with WatchdogTask while the game is on: a pass
that costs a life takes exactly one, hands the new value to the mailbox and
leaves the game on exactly when the level is at most CLEAR_LEVEL and a life
is left; any other pass leaves life, the count and the mailbox alone. -/
theorem sysStep_spec (t : Tally) (x : Input) (hm : t.st.mode = Mode.running)
    (h1 : 1 ≤ t.st.life) (h5 : t.st.life ≤ 5) (hidx : t.st.orderIdx ≤ 14) :
    ∃ t', sysStep t x = some t' ∧
      (isLoss (env t.st x) = true →
        t'.st.life + 1 = t.st.life ∧ t'.losses = t.losses + 1 ∧
        t'.posts = t.posts ++ [t'.st.life] ∧ t'.st.Level = t.st.Level ∧
        (t.st.Level ≤ CLEAR_LEVEL → 1 ≤ t'.st.life → t'.st.mode = Mode.running) ∧
        (t.st.Level ≤ CLEAR_LEVEL → t'.st.life = 0 → t'.st.mode = Mode.over) ∧
        (CLEAR_LEVEL < t.st.Level → t'.st.mode = Mode.cleared)) ∧
      (isLoss (env t.st x) = false →
        t'.st.life = t.st.life ∧ t'.losses = t.losses ∧ t'.posts = t.posts ∧
        t'.st.mode = Mode.running) := by
  obtain ⟨eL, elife, eidx, -, emode, -, -, -, -⟩ := env_frame t.st x
  obtain ⟨res, hres, hL, hlife, hnone, hsome, -, -, hmode, -, -, hexcl⟩ :=
    ledTick_spec (env t.st x) x.rand (by rw [eidx]; exact hidx)
  unfold sysStep
  rw [if_pos hm, hres]
  dsimp only
  cases hloss : isLoss (env t.st x)
  · rw [hnone hloss]
    rw [hloss] at hlife
    simp only [Bool.false_eq_true, if_false] at hlife
    refine ⟨_, rfl, fun h => absurd h (by decide), fun _ => ⟨?_, ?_, rfl, ?_⟩⟩
    · show res.st.life = t.st.life
      rw [hlife, elife]
    · show bump t.losses false = t.losses
      rfl
    · show res.st.mode = Mode.running
      rw [hmode, emode, hm]
  · obtain ⟨p, hp, hplife, hpL, hpmode, -, -⟩ := hsome hloss
    have hhit : isHit (env t.st x) = false := by
      cases hh : isHit (env t.st x)
      · rfl
      · have := hexcl hh
        rw [hloss] at this
        exact absurd this (by decide)
    rw [hloss] at hlife
    simp only [if_true] at hlife
    have hdec : u8dec t.st.life = t.st.life - 1 := u8dec_of_pos _ h1 (by omega)
    rw [elife, hdec] at hplife hlife
    have hpL2 : p.Level = t.st.Level := hpL.trans eL
    rw [hp]
    dsimp only
    by_cases hlev : CLEAR_LEVEL < t.st.Level
    · rw [watchdogBody_cleared p _ (by rw [hpL2]; exact hlev)]
      refine ⟨_, rfl, fun _ => ⟨?_, rfl, rfl, hpL2, ?_, ?_, fun _ => rfl⟩,
        fun h => absurd h (by decide)⟩
      · show p.life + 1 = t.st.life
        rw [hplife]; omega
      · intro hc; exact absurd hlev (Nat.not_lt.mpr hc)
      · intro hc; exact absurd hlev (Nat.not_lt.mpr hc)
    · have hlev2 : p.Level ≤ CLEAR_LEVEL := by rw [hpL2]; exact Nat.not_lt.mp hlev
      by_cases hz : p.life = 0
      · rw [hz, watchdogBody_over p hlev2]
        refine ⟨_, rfl, fun _ => ⟨?_, rfl, ?_, hpL2, ?_, fun _ _ => rfl, ?_⟩,
          fun h => absurd h (by decide)⟩
        · show p.life + 1 = t.st.life
          rw [hplife]; omega
        · show t.posts ++ [0] = t.posts ++ [p.life]
          rw [hz]
        · intro _ hc
          have hc2 : 1 ≤ p.life := hc
          omega
        · intro hc; exact absurd hc hlev
      · obtain ⟨d, -, hw⟩ := watchdogBody_forward p p.life hlev2 (by omega) (by omega)
        rw [hw]
        simp only [hpmode, emode, hm, if_true]
        refine ⟨_, rfl, fun _ => ⟨?_, rfl, ?_, ?_, ?_, ?_, ?_⟩, fun h => absurd h (by decide)⟩
        · show res.st.life + 1 = t.st.life
          rw [hlife]; omega
        · show t.posts ++ [p.life] = t.posts ++ [res.st.life]
          rw [hplife, hlife]
        · show res.st.Level = t.st.Level
          rw [hL, hhit]
          simp only [Bool.false_eq_true, if_false]
          exact eL
        · intro _ _
          show res.st.mode = Mode.running
          rw [hmode, emode, hm]
        · intro _ hc
          have hc2 : res.st.life = 0 := hc
          rw [hlife] at hc2
          omega
        · intro hc; exact absurd hc hlev

theorem sysStep_mode (l0 : Nat) (t : Tally) (x : Input) (h : SysInv l0 t) (hM : SysMode t) :
    ∃ t', sysStep t x = some t' ∧ SysInv l0 t' ∧ SysMode t' := by
  obtain ⟨t1, ht1, hinv1⟩ := sysStep_inv l0 t x h
  refine ⟨t1, ht1, hinv1, ?_⟩
  by_cases hm : t.st.mode = Mode.running
  · obtain ⟨h1, -, -, h4, -⟩ := h
    simp only [INITIAL_LIFE] at h1
    obtain ⟨t2, ht2, hl, hn⟩ := sysStep_spec t x hm (h4 hm).1 (by omega) (h4 hm).2
    have e : t2 = t1 := Option.some.inj (ht2.symm.trans ht1)
    rw [e] at hl hn
    cases hloss : isLoss (env t.st x)
    · have hrun := (hn hloss).2.2.2
      refine ⟨fun hc => ?_, fun hc => ?_⟩
      · rw [hrun] at hc; exact absurd hc (by decide)
      · rw [hrun] at hc; exact absurd hc (by decide)
    · obtain ⟨-, -, -, hLev, hr, ho, hc⟩ := hl hloss
      refine ⟨fun hov => ?_, fun hcl => ?_⟩
      · by_cases hlev : CLEAR_LEVEL < t.st.Level
        · rw [hc hlev] at hov; exact absurd hov (by decide)
        · have hlev2 := Nat.not_lt.mp hlev
          refine ⟨?_, by rw [hLev]; exact hlev2⟩
          by_contra hne
          have := hr hlev2 (by omega)
          rw [this] at hov
          exact absurd hov (by decide)
      · by_contra hlev
        have hlev2 := Nat.not_lt.mp (by rw [hLev] at hlev; exact hlev)
        by_cases hz : t1.st.life = 0
        · rw [ho hlev2 hz] at hcl; exact absurd hcl (by decide)
        · rw [hr hlev2 (by omega)] at hcl; exact absurd hcl (by decide)
  · have e : t1 = t := Option.some.inj (ht1.symm.trans (sysStep_halted t x hm))
    rw [e]
    exact hM

theorem sysFold_mode (l0 : Nat) (xs : List Input) :
    ∀ t, SysInv l0 t → SysMode t →
      ∃ t', xs.foldlM sysStep t = some t' ∧ SysInv l0 t' ∧ SysMode t' := by
  induction xs with
  | nil => intro t h hM; exact ⟨t, rfl, h, hM⟩
  | cons x xs ih =>
    intro t h hM
    obtain ⟨t1, h1, hi1, hM1⟩ := sysStep_mode l0 t x h hM
    obtain ⟨t2, h2, hi2, hM2⟩ := ih t1 hi1 hM1
    refine ⟨t2, ?_, hi2, hM2⟩
    rw [List.foldlM_cons, h1]
    exact h2

/-- C3: in a run of LedTask with WatchdogTask that starts with five lives,
after any inputs: life plus the number of misses and timeouts so far is
five, the values handed to the mailbox are 4, 3, ... in this order, life is
0 exactly when five lives were lost, and the game is on whenever a life is
left and the level is at most CLEAR_LEVEL.  On the next pass, while the game
is on: a miss or a timeout takes exactly one life, hands the new value to
the mailbox, and leaves the game on exactly when the level is at most
CLEAR_LEVEL and a life is left; any other pass leaves life alone.  Once
WatchdogTask is caught in an inner loop, which it is at life 0, nothing
changes any more: life does not wrap below 0. -/
theorem C3_life_counts_down_without_wrap (s : Game) (xs : List Input) (x : Input)
    (hlife : s.life = INITIAL_LIFE) (hmode : s.mode = Mode.running)
    (hidx : s.orderIdx ≤ 14) (hL : s.Level < 256) :
    ∃ t t', sysRun s xs = some t ∧ sysRun s (xs ++ [x]) = some t' ∧
      t.st.life + t.losses = 5 ∧
      t.posts = (List.range t.losses).map (fun j => 4 - j) ∧
      (t.st.life = 0 ↔ t.losses = 5) ∧
      (t.st.life = 0 → t.st.mode ≠ Mode.running) ∧
      (1 ≤ t.st.life → t.st.Level ≤ CLEAR_LEVEL → t.st.mode = Mode.running) ∧
      (t.st.mode = Mode.running → isLoss (env t.st x) = true →
        t'.st.life + 1 = t.st.life ∧ t'.losses = t.losses + 1 ∧
        t'.posts = t.posts ++ [t'.st.life] ∧
        (t'.st.mode = Mode.running ↔ (t.st.Level ≤ CLEAR_LEVEL ∧ 1 ≤ t'.st.life))) ∧
      (t.st.mode = Mode.running → isLoss (env t.st x) = false →
        t'.st.life = t.st.life ∧ t'.losses = t.losses ∧ t'.posts = t.posts ∧
        t'.st.mode = Mode.running) ∧
      (t.st.mode ≠ Mode.running → t' = t) := by
  have hM0 : SysMode ⟨s, 0, 0, []⟩ := by
    refine ⟨fun hc => ?_, fun hc => ?_⟩
    · have hc2 : s.mode = Mode.over := hc
      rw [hmode] at hc2
      exact absurd hc2 (by decide)
    · have hc2 : s.mode = Mode.cleared := hc
      rw [hmode] at hc2
      exact absurd hc2 (by decide)
  obtain ⟨t, ht, hinv, hM⟩ :=
    sysFold_mode s.Level xs ⟨s, 0, 0, []⟩ (sysInv_start s hlife hmode hidx hL) hM0
  obtain ⟨t', ht', -, -⟩ := sysStep_mode s.Level t x hinv hM
  obtain ⟨i1, i2, -, i4, -⟩ := hinv
  simp only [INITIAL_LIFE] at i1
  have hrun' : sysRun s (xs ++ [x]) = some t' := by
    unfold sysRun
    rw [List.foldlM_append, ht]
    show sysStep t x >>= (fun b => [].foldlM sysStep b) = some t'
    rw [ht']
    rfl
  refine ⟨t, t', ht, hrun', i1, i2, by omega, ?_, ?_, ?_, ?_, ?_⟩
  · intro h0 hrun
    have := (i4 hrun).1
    omega
  · intro hl1 hlev
    cases hmd : t.st.mode
    · rfl
    · have := hM.2 hmd
      omega
    · have := (hM.1 hmd).1
      omega
  · intro hrun hloss
    obtain ⟨t2, ht2, hl, -⟩ := sysStep_spec t x hrun (i4 hrun).1 (by omega) (i4 hrun).2
    have e : t2 = t' := Option.some.inj (ht2.symm.trans ht')
    rw [e] at hl
    obtain ⟨a1, a2, a3, -, a5, a6, a7⟩ := hl hloss
    refine ⟨a1, a2, a3, ⟨fun hr => ?_, fun hr => a5 hr.1 hr.2⟩⟩
    by_cases hlev : CLEAR_LEVEL < t.st.Level
    · rw [a7 hlev] at hr; exact absurd hr (by decide)
    · have hlev2 := Nat.not_lt.mp hlev
      refine ⟨hlev2, ?_⟩
      by_contra hne
      rw [a6 hlev2 (by omega)] at hr
      exact absurd hr (by decide)
  · intro hrun hloss
    obtain ⟨t2, ht2, -, hn⟩ := sysStep_spec t x hrun (i4 hrun).1 (by omega) (i4 hrun).2
    have e : t2 = t' := Option.some.inj (ht2.symm.trans ht')
    rw [e] at hn
    exact hn hloss
  · intro hhalt
    exact (Option.some.inj (ht'.symm.trans (sysStep_halted t x hhalt)))

/-- Witness of C3: the fifth push of the button, after four, from the start
of a game; it takes the last life and ends the game. -/
theorem C3_witness :
    (start 7 0).life = INITIAL_LIFE ∧ (start 7 0).mode = Mode.running ∧
    (start 7 0).orderIdx ≤ 14 ∧ (start 7 0).Level < 256 ∧
    (∃ t t', sysRun (start 7 0) fourClicks = some t ∧
      sysRun (start 7 0) (fourClicks ++ [click 7]) = some t' ∧
      t.st.life + t.losses = 5 ∧
      t.posts = (List.range t.losses).map (fun j => 4 - j) ∧
      (t.st.life = 0 ↔ t.losses = 5) ∧
      (t.st.life = 0 → t.st.mode ≠ Mode.running) ∧
      (1 ≤ t.st.life → t.st.Level ≤ CLEAR_LEVEL → t.st.mode = Mode.running) ∧
      (t.st.mode = Mode.running → isLoss (env t.st (click 7)) = true →
        t'.st.life + 1 = t.st.life ∧ t'.losses = t.losses + 1 ∧
        t'.posts = t.posts ++ [t'.st.life] ∧
        (t'.st.mode = Mode.running ↔ (t.st.Level ≤ CLEAR_LEVEL ∧ 1 ≤ t'.st.life))) ∧
      (t.st.mode = Mode.running → isLoss (env t.st (click 7)) = false →
        t'.st.life = t.st.life ∧ t'.losses = t.losses ∧ t'.posts = t.posts ∧
        t'.st.mode = Mode.running) ∧
      (t.st.mode ≠ Mode.running → t' = t)) ∧
    (sysRun (start 7 0) fourClicks).map
        (fun t => (t.losses, t.st.life, t.st.mode, t.posts, isLoss (env t.st (click 7)))) =
      some (4, 1, Mode.running, [4, 3, 2, 1], true) ∧
    (sysRun (start 7 0) (fourClicks ++ [click 7])).map
        (fun t => (t.losses, t.st.life, t.st.mode, t.posts)) =
      some (5, 0, Mode.over, [4, 3, 2, 1, 0]) :=
  ⟨rfl, rfl, by decide, by decide,
    C3_life_counts_down_without_wrap (start 7 0) fourClicks (click 7) rfl rfl (by decide)
      (by decide),
    by decide, by decide⟩

/-- LedTask taken alone has no guard on its decrement of life: six pushes
of the button without a match take life from 5 through 0 to 255.  With
WatchdogTask the sixth push is never looked at, because the game is over. -/
theorem sixth_loss_needs_watchdog :
    (ledRun (start 7 0) sixClicks).map (fun t => (t.losses, t.st.life)) = some (6, 255) ∧
    (sysRun (start 7 0) sixClicks).map (fun t => (t.losses, t.st.life, t.st.mode)) =
      some (5, 0, Mode.over) := by
  decide

/-- Counterexample to C5 as stated: after ten consecutive hits from level 1
the level is 11, but WatchdogTask is still waiting on the mailbox; it has
not entered the cleared state. -/
theorem C5_counterexample :
    (sysRun (start 7 0) tenHits).map (fun t => (t.hits, t.losses, t.st.Level, t.st.mode)) =
      some (10, 0, 11, Mode.running) := by
  decide

/-- C5, amended: in a run of LedTask with WatchdogTask from level 1 and
five lives, once ten hits and no loss have happened the level is 11 and
WatchdogTask is still waiting; the next pass that costs a life (a miss or a
timeout) puts it in the cleared state, with the level still 11. -/
theorem C5_ten_hits_then_loss_clears (s : Game) (xs : List Input)
    (hL : s.Level = INITIAL_LEVEL) (hlife : s.life = INITIAL_LIFE)
    (hmode : s.mode = Mode.running) (hidx : s.orderIdx ≤ 14) :
    ∃ t, sysRun s xs = some t ∧
      (t.hits = 10 → t.losses = 0 →
        t.st.Level = 11 ∧ t.st.mode = Mode.running ∧
        ∀ x, isLoss (env t.st x) = true →
          ∃ t', sysStep t x = some t' ∧ t'.st.mode = Mode.cleared ∧ t'.st.Level = 11) := by
  have hL8 : s.Level < 256 := by rw [hL]; decide
  obtain ⟨t, ht, -, -, h3, h4, h5⟩ :=
    sysFold_inv s.Level xs ⟨s, 0, 0, []⟩ (sysInv_start s hlife hmode hidx hL8)
  refine ⟨t, ht, ?_⟩
  intro hh hl
  have hlev : t.st.Level = 11 := by rw [h3, hL, hh]; rfl
  have hrun := h5 hl
  refine ⟨hlev, hrun, ?_⟩
  intro x hx
  obtain ⟨t', h1, h2, h3'⟩ :=
    sysStep_loss_clears t x hrun (h4 hrun).2 (by rw [hlev]; decide) hx
  exact ⟨t', h1, h2, by rw [h3', hlev]⟩

/-- Witness of C5: ten rounds won from the start of a game. -/
theorem C5_witness :
    (start 7 0).Level = INITIAL_LEVEL ∧ (start 7 0).life = INITIAL_LIFE ∧
    (start 7 0).mode = Mode.running ∧ (start 7 0).orderIdx ≤ 14 ∧
    ∃ t, sysRun (start 7 0) tenHits = some t ∧
      t.st.Level = 11 ∧ t.st.mode = Mode.running ∧
      ∀ x, isLoss (env t.st x) = true →
        ∃ t', sysStep t x = some t' ∧ t'.st.mode = Mode.cleared ∧ t'.st.Level = 11 := by
  refine ⟨rfl, rfl, rfl, by decide, ?_⟩
  obtain ⟨t, ht, h⟩ :=
    C5_ten_hits_then_loss_clears (start 7 0) tenHits rfl rfl rfl (by decide)
  have hc : (sysRun (start 7 0) tenHits).map (fun t => (t.hits, t.losses)) = some (10, 0) := by
    decide
  rw [ht] at hc
  simp only [Option.map_some', Option.some.injEq, Prod.mk.injEq] at hc
  exact ⟨t, ht, h hc.1 hc.2⟩

/-! ## Runs of LedTask alone -/

theorem ledStep_inv (l0 : Nat) (t : Tally) (x : Input) (hidx : t.st.orderIdx ≤ 14) :
    ∃ t', ledStep t x = some t' ∧ t'.st.orderIdx ≤ 14 ∧
      (1 ≤ t.st.left_time ∧ t.st.left_time ≤ 3 → 1 ≤ t'.st.left_time ∧ t'.st.left_time ≤ 3) ∧
      (t.st.Level = (l0 + t.hits) % 256 → t'.st.Level = (l0 + t'.hits) % 256) ∧
      t.hits ≤ t'.hits ∧ (t.st.Level = t'.st.Level ∨ t.hits < t'.hits) := by
  obtain ⟨eL, -, eidx, elt, -, -, -, -, -⟩ := env_frame t.st x
  obtain ⟨res, hres, hL, -, -, -, hidx2, hlt, -, -, -, -⟩ :=
    ledTick_spec (env t.st x) x.rand (by rw [eidx]; exact hidx)
  unfold ledStep
  rw [hres]
  refine ⟨_, rfl, hidx2, ?_, ?_, ?_, ?_⟩
  · intro hb
    exact hlt (by rw [elt]; exact hb)
  · intro h3
    show res.st.Level = (l0 + bump t.hits (isHit (env t.st x))) % 256
    rw [hL, eL, h3]
    cases isHit (env t.st x) <;> simp [bump, u8inc]
    omega
  · show t.hits ≤ bump t.hits (isHit (env t.st x))
    cases isHit (env t.st x) <;> simp [bump]
  · show t.st.Level = res.st.Level ∨ t.hits < bump t.hits (isHit (env t.st x))
    rw [hL, eL]
    cases isHit (env t.st x) <;> simp [bump]

theorem ledFold_inv (l0 : Nat) (xs : List Input) :
    ∀ t : Tally, t.st.orderIdx ≤ 14 →
      ∃ t', xs.foldlM ledStep t = some t' ∧ t'.st.orderIdx ≤ 14 ∧
        (1 ≤ t.st.left_time ∧ t.st.left_time ≤ 3 →
          1 ≤ t'.st.left_time ∧ t'.st.left_time ≤ 3) ∧
        (t.st.Level = (l0 + t.hits) % 256 → t'.st.Level = (l0 + t'.hits) % 256) := by
  induction xs with
  | nil => intro t h; exact ⟨t, rfl, h, fun hb => hb, fun hb => hb⟩
  | cons x xs ih =>
    intro t h
    obtain ⟨t1, h1, hi1, hlt1, hL1, -, -⟩ := ledStep_inv l0 t x h
    obtain ⟨t2, h2, hi2, hlt2, hL2⟩ := ih t1 hi1
    refine ⟨t2, ?_, hi2, fun hb => hlt2 (hlt1 hb), fun hb => hL2 (hL1 hb)⟩
    rw [List.foldlM_cons, h1]
    exact h2

/-- Counterexample to C2 as stated: eleven rounds won in a row from the
start of a game take the level from 1 to 12, outside [1, 11]; WatchdogTask,
which receives no life value on the way, does not interfere. -/
theorem C2_counterexample :
    (start 7 0).Level = 1 ∧
    (ledRun (start 7 0) elevenHits).map (fun t => (t.hits, t.st.Level)) = some (11, 12) ∧
    (sysRun (start 7 0) elevenHits).map (fun t => (t.hits, t.st.Level, t.st.mode)) =
      some (11, 12, Mode.running) ∧
    ¬ (12 ≤ 11) := by
  decide

/-- C2, amended: in every run of LedTask from level 1, the level is 1 plus
the number of hits so far, modulo 256; as long as at most ten hits have
happened the level does not decrease from one pass to the next and stays
within [1, 11]. -/
theorem C2_level_monotone_and_bounded_up_to_ten_hits (s : Game) (xs : List Input) (x : Input)
    (hL : s.Level = INITIAL_LEVEL) (hidx : s.orderIdx ≤ 14) :
    ∃ t t', ledRun s xs = some t ∧ ledRun s (xs ++ [x]) = some t' ∧
      t'.st.Level = (1 + t'.hits) % 256 ∧
      (t'.hits ≤ 10 → 1 ≤ t.st.Level ∧ t.st.Level ≤ t'.st.Level ∧ t'.st.Level ≤ 11) := by
  have h0 : (⟨s, 0, 0, []⟩ : Tally).st.Level = (1 + (⟨s, 0, 0, []⟩ : Tally).hits) % 256 := by
    show s.Level = (1 + 0) % 256
    rw [hL]
    rfl
  obtain ⟨t, ht, hi, -, hLt⟩ := ledFold_inv 1 xs ⟨s, 0, 0, []⟩ hidx
  obtain ⟨t', ht', -, -, hLt', hmono, -⟩ := ledStep_inv 1 t x hi
  have e1 := hLt h0
  have e2 := hLt' e1
  refine ⟨t, t', ht, ?_, e2, ?_⟩
  · unfold ledRun
    rw [List.foldlM_append, ht]
    show ledStep t x >>= (fun b => [].foldlM ledStep b) = some t'
    rw [ht']
    rfl
  · intro h10
    rw [e1, e2]
    omega

/-- Witness of C2: the tenth hit of ten rounds won from the start. -/
theorem C2_witness :
    (start 7 0).Level = INITIAL_LEVEL ∧ (start 7 0).orderIdx ≤ 14 ∧
    ∃ t t', ledRun (start 7 0) (tenHits.dropLast) = some t ∧
      ledRun (start 7 0) (tenHits.dropLast ++ [click 7]) = some t' ∧
      t'.st.Level = (1 + t'.hits) % 256 ∧
      1 ≤ t.st.Level ∧ t.st.Level ≤ t'.st.Level ∧ t'.st.Level ≤ 11 := by
  refine ⟨rfl, by decide, ?_⟩
  obtain ⟨t, t', ht, ht', hl, h⟩ :=
    C2_level_monotone_and_bounded_up_to_ten_hits (start 7 0) tenHits.dropLast (click 7) rfl
      (by decide)
  have hc : (ledRun (start 7 0) (tenHits.dropLast ++ [click 7])).map (fun t => t.hits) =
      some 10 := by
    decide
  rw [ht'] at hc
  simp only [Option.map_some', Option.some.injEq] at hc
  exact ⟨t, t', ht, ht', hl, h (by omega)⟩

/-- C10: from the start of a game, after any number of passes of LedTask
under any inputs, the pass is defined (no read past the end of Order), the
sweep index is in [0, 14], the deadline is in [1, 3], and Order has an entry
at the sweep index. -/
theorem C10_sweep_index_and_deadline_in_range (r x : Nat) (xs : List Input) :
    ∃ t, ledRun (start r x) xs = some t ∧
      t.st.orderIdx ≤ 14 ∧ 1 ≤ t.st.left_time ∧ t.st.left_time ≤ 3 ∧
      ∃ o, Order[t.st.orderIdx]? = some o := by
  obtain ⟨t, ht, hi, hlt, -⟩ :=
    ledFold_inv 1 xs ⟨start r x, 0, 0, []⟩ (by show CYCLE_BEGIN ≤ 14; decide)
  have hb := hlt (by show 1 ≤ DEADLINE ∧ DEADLINE ≤ 3; decide)
  exact ⟨t, ht, hi, hb.1, hb.2, order_lookup _ hi⟩

/-! ## The remaining claims on single passes -/

/-- Witness of C1: the token 0x80 lit at the first position of the sweep. -/
theorem C1_witness :
    Order[0]? = some 0x80 ∧ 7 < 8 ∧ litAndClicked.token = 1 <<< 7 ∧
    litAndClicked.PORTA =
      (if BRIGHT = DARK then (0x80 ||| litAndClicked.token) ^^^ 0xFF
        else 0x80 ||| litAndClicked.token) ∧
    litAndClicked.Sw2 = OFF ∧ litAndClicked.Sw1 = ON ∧
    (((litAndClicked.PORTA = litAndClicked.token ∨
        litAndClicked.PORTA = litAndClicked.token ^^^ 0xFF) ↔ 0x80 = litAndClicked.token) ∧
    ∃ res, ledTick litAndClicked 3 = some res ∧
      ((res.post = none ∧ res.st.Level = u8inc litAndClicked.Level ∧
          res.st.life = litAndClicked.life) ↔ 0x80 = litAndClicked.token) ∧
      ((res.post.map Game.life = some (u8dec litAndClicked.life) ∧
          res.st.life = u8dec litAndClicked.life ∧
          res.st.Level = litAndClicked.Level) ↔ 0x80 ≠ litAndClicked.token)) :=
  ⟨rfl, by decide, rfl, rfl, rfl, rfl,
    C1_press_is_hit_iff_indicator_on_token litAndClicked 3 0 7 0x80 BRIGHT rfl (by decide) rfl
      rfl rfl rfl⟩

theorem getRandomToken_one_hot (r : Nat) : getRandomToken r = 1 <<< (r % 8) := by
  unfold getRandomToken
  have h : r % 8 < 8 := Nat.mod_lt r (by decide)
  generalize r % 8 = k at h
  interval_cases k <;> rfl

/-- C6: a pass of LedTask that ends a round, by a hit, by a miss on a
wrong press or by a timeout, leaves the sweep index at CYCLE_BEGIN, the
deadline at DEADLINE, and a token freshly drawn by getRandomToken, which is
the one-hot byte 1 << (r mod 8). -/
theorem C6_round_end_resets_sweep_and_redraws_token (s : Game) (r : Nat)
    (h8 : s.orderIdx < 256)
    (hend : isHit s = true ∨ isMiss s = true ∨ isTimeout s = true) :
    ∃ res, ledTick s r = some res ∧
      res.st.orderIdx = CYCLE_BEGIN ∧ res.st.left_time = DEADLINE ∧
      res.st.token = getRandomToken r ∧ getRandomToken r = 1 <<< (r % 8) ∧ r % 8 < 8 := by
  have hr : r % 8 < 8 := Nat.mod_lt r (by decide)
  rcases hend with h | h | h
  · simp only [isHit, Bool.and_eq_true, decide_eq_true_eq, Bool.not_eq_true',
      decide_eq_false_iff_not, Bool.or_eq_true] at h
    obtain ⟨⟨h2, h1⟩, hm⟩ := h
    refine ⟨_, ledTick_click s r h2 h1, ?_⟩
    rw [ledClick_hit _ r (by simpa using hm)]
    exact ⟨rfl, rfl, rfl, getRandomToken_one_hot r, hr⟩
  · simp only [isMiss, Bool.and_eq_true, decide_eq_true_eq, Bool.not_eq_true',
      decide_eq_false_iff_not, Bool.or_eq_false_iff] at h
    obtain ⟨⟨h2, h1⟩, hm1, hm2⟩ := h
    refine ⟨_, ledTick_click s r h2 h1, ?_⟩
    rw [ledClick_miss _ r (by simp only [ledFlags_PORTA, ledFlags_token, not_or]; exact ⟨hm1, hm2⟩)]
    exact ⟨rfl, rfl, rfl, getRandomToken_one_hot r, hr⟩
  · simp only [isTimeout, Bool.and_eq_true, decide_eq_true_eq] at h
    obtain ⟨⟨⟨h2, h1⟩, hi⟩, ht⟩ := h
    have hidx : s.orderIdx ≤ 14 := by
      unfold u8inc CYCLE_END at hi
      omega
    obtain ⟨o, ho⟩ := order_lookup s.orderIdx hidx
    refine ⟨_, ledTick_sweep s r o h2 h1 ho, ?_⟩
    obtain ⟨-, hs2, hs3, -, hs5⟩ :=
      ledSweep_timeout (ledFlags s) o r (by simpa using hi) (by simpa using ht)
    exact ⟨hs2, hs3, hs5, getRandomToken_one_hot r, hr⟩

/-- Witness of C6: a hit at the first position of the sweep. -/
theorem C6_witness :
    litAndClicked.orderIdx < 256 ∧
    (isHit litAndClicked = true ∨ isMiss litAndClicked = true ∨
      isTimeout litAndClicked = true) ∧
    ∃ res, ledTick litAndClicked 3 = some res ∧
      res.st.orderIdx = CYCLE_BEGIN ∧ res.st.left_time = DEADLINE ∧
      res.st.token = getRandomToken 3 ∧ getRandomToken 3 = 1 <<< (3 % 8) ∧ 3 % 8 < 8 :=
  ⟨by decide, Or.inl (by decide),
    C6_round_end_resets_sweep_and_redraws_token litAndClicked 3 (by decide)
      (Or.inl (by decide))⟩

/-- Counterexample to C7 as stated: a paused pass of LedTask with a dark
flag pending does more than sleep; it consumes the flag and turns the
brightness from BRIGHT to DARK. -/
theorem C7_counterexample :
    pausedDark.Sw2 ≠ OFF ∧ pausedDark.brightness = BRIGHT ∧ pausedDark.flagDark = true ∧
    (ledTick pausedDark 0).map (fun res => (res.st.brightness, res.st.flagDark)) =
      some (DARK, false) ∧
    (ledTick pausedDark 0).map (fun res => decide (res.st = pausedDark)) = some false := by
  decide

/-- C7, amended: a pass of LedTask and a pass of FndTask made while Sw2 is
set leave the sweep index, the deadline, the token, life, Level, speed, Sw1,
PORTA, LevelDisp and the message queue as they were, post nothing and write
no port; each only calls OSTimeDly(PAUSE_INTERVAL).  FndTask changes nothing
at all.  LedTask changes nothing but the brightness and the two event
flags, which it still accepts and consumes; with no flag pending it changes
nothing at all. -/
theorem C7_paused_passes_only_sleep_and_take_flags (s : Game) (r : Nat) (h : s.Sw2 ≠ OFF) :
    (∃ res, ledTick s r = some res ∧ res.post = none ∧ res.tr = [Ev.dly PAUSE_INTERVAL] ∧
      res.st.orderIdx = s.orderIdx ∧ res.st.left_time = s.left_time ∧
      res.st.token = s.token ∧ res.st.life = s.life ∧ res.st.Level = s.Level ∧
      res.st.speed = s.speed ∧ res.st.Sw1 = s.Sw1 ∧ res.st.PORTA = s.PORTA ∧
      res.st.LevelDisp = s.LevelDisp ∧ res.st.MQueue = s.MQueue ∧
      res.st = { s with brightness := res.st.brightness, flagDark := res.st.flagDark,
                        flagBright := res.st.flagBright } ∧
      (s.flagDark = false → s.flagBright = false → res.st = s)) ∧
    fndTick s = some ⟨s, [Ev.dly PAUSE_INTERVAL]⟩ := by
  refine ⟨⟨_, ledTick_paused s r h, rfl, rfl, ?_⟩, ?_⟩
  · simp only [ledFlags_orderIdx, ledFlags_left_time, ledFlags_token, ledFlags_life,
      ledFlags_Level, ledFlags_speed, ledFlags_Sw1, ledFlags_PORTA, ledFlags_LevelDisp,
      ledFlags_MQueue, true_and]
    constructor
    · unfold ledFlags
      dsimp only
      split_ifs <;> rfl
    · intro hd hb
      unfold ledFlags
      simp [hd, hb]
  · unfold fndTick
    rw [if_neg h]

/-- Witness of C7: the paused state with a dark flag pending. -/
theorem C7_witness :
    pausedDark.Sw2 ≠ OFF ∧
    ((∃ res, ledTick pausedDark 0 = some res ∧ res.post = none ∧
      res.tr = [Ev.dly PAUSE_INTERVAL] ∧
      res.st.orderIdx = pausedDark.orderIdx ∧ res.st.left_time = pausedDark.left_time ∧
      res.st.token = pausedDark.token ∧ res.st.life = pausedDark.life ∧
      res.st.Level = pausedDark.Level ∧
      res.st.speed = pausedDark.speed ∧ res.st.Sw1 = pausedDark.Sw1 ∧
      res.st.PORTA = pausedDark.PORTA ∧
      res.st.LevelDisp = pausedDark.LevelDisp ∧ res.st.MQueue = pausedDark.MQueue ∧
      res.st = { pausedDark with brightness := res.st.brightness, flagDark := res.st.flagDark,
                                 flagBright := res.st.flagBright } ∧
      (pausedDark.flagDark = false → pausedDark.flagBright = false → res.st = pausedDark)) ∧
    fndTick pausedDark = some ⟨pausedDark, [Ev.dly PAUSE_INTERVAL]⟩) :=
  ⟨by decide, C7_paused_passes_only_sleep_and_take_flags pausedDark 0 (by decide)⟩

/-! ## WatchdogTask over a sequence of life values -/

theorem wdFold_halted (lives : List Nat) :
    ∀ a : Game × List (List Nat), a.1.mode ≠ Mode.running → lives.foldlM wdStep a = some a := by
  induction lives with
  | nil => intro a _; rfl
  | cons l ls ih =>
    intro a h
    rw [List.foldlM_cons]
    have hs : wdStep a l = some a := by
      unfold wdStep
      rw [if_neg h]
    rw [hs]
    exact ih a h

theorem wdStep_forward (a : Game × List (List Nat)) (life : Nat) (hm : a.1.mode = Mode.running)
    (h : a.1.Level ≤ CLEAR_LEVEL) (h1 : 1 ≤ life) (h9 : life ≤ 9)
    (hq : a.1.MQueue < MSG_QUEUE_SIZE) :
    wdStep a life =
      some ({ a.1 with send := a.1.send.set 5 (Digit.getD life 0), MQueue := a.1.MQueue + 1 },
        a.2 ++ [a.1.send.set 5 (Digit.getD life 0)]) := by
  obtain ⟨d, hd, hw⟩ := watchdogBody_forward a.1 life h h1 h9
  have hd2 : Digit.getD life 0 = d := by
    rw [List.getD_eq_getElem?_getD, hd]
    rfl
  unfold wdStep
  rw [if_pos hm, hw, hd2, if_pos hq]
  rfl

theorem wdStep_over (a : Game × List (List Nat)) (hm : a.1.mode = Mode.running)
    (h : a.1.Level ≤ CLEAR_LEVEL) :
    wdStep a 0 = some ({ a.1 with mode := Mode.over }, a.2) := by
  unfold wdStep
  rw [if_pos hm, watchdogBody_over _ h]
  simp

/-- C4: with the level at most 10 and room for four entries in the queue,
WatchdogTask, on receiving the life values 4, 3, 2, 1, 0 in this order, hands
four buffers to OSQPost, each the six bytes LifeDisp[0..3], BLANK,
Digit[life] for life = 4, 3, 2, 1 in this order, which the queue takes; on
receiving 0 it enters the game-over loop and posts nothing; from there no
further life value makes it post anything. -/
theorem C4_five_misses_show_four_lives_then_game_over (s : Game) (x : Nat)
    (hmode : s.mode = Mode.running) (hlev : s.Level ≤ CLEAR_LEVEL)
    (hsend : s.send = LifeDisp ++ [BLANK, x]) (hq : s.MQueue + 4 ≤ MSG_QUEUE_SIZE) :
    ∃ s', wdRun s [4, 3, 2, 1, 0] =
        some (s', [4, 3, 2, 1].map fun life => LifeDisp ++ [BLANK, Digit.getD life 0]) ∧
      s'.mode = Mode.over ∧ s'.MQueue = s.MQueue + 4 ∧
      ∀ more, wdRun s' more = some (s', []) := by
  simp only [MSG_QUEUE_SIZE] at hq
  refine ⟨{ s with send := LifeDisp ++ [BLANK, Digit.getD 1 0], MQueue := s.MQueue + 4,
                   mode := Mode.over }, ?_, rfl, rfl, ?_⟩
  · unfold wdRun
    rw [List.foldlM_cons,
      wdStep_forward (s, []) 4 hmode hlev (by decide) (by decide) (by simp [MSG_QUEUE_SIZE]; omega)]
    show List.foldlM wdStep _ [3, 2, 1, 0] = _
    rw [List.foldlM_cons,
      wdStep_forward _ 3 hmode hlev (by decide) (by decide) (by simp [MSG_QUEUE_SIZE]; omega)]
    show List.foldlM wdStep _ [2, 1, 0] = _
    rw [List.foldlM_cons,
      wdStep_forward _ 2 hmode hlev (by decide) (by decide) (by simp [MSG_QUEUE_SIZE]; omega)]
    show List.foldlM wdStep _ [1, 0] = _
    rw [List.foldlM_cons,
      wdStep_forward _ 1 hmode hlev (by decide) (by decide) (by simp [MSG_QUEUE_SIZE]; omega)]
    show List.foldlM wdStep _ [0] = _
    rw [List.foldlM_cons, wdStep_over _ hmode hlev]
    simp [hsend, LifeDisp, Digit, BLANK]
  · intro more
    exact wdFold_halted more _ (by simp)

/-- Witness of C4: WatchdogTask at the start of a game. -/
theorem C4_witness :
    (start 7 0).mode = Mode.running ∧ (start 7 0).Level ≤ CLEAR_LEVEL ∧
    (start 7 0).send = LifeDisp ++ [BLANK, 0] ∧ (start 7 0).MQueue + 4 ≤ MSG_QUEUE_SIZE ∧
    ∃ s', wdRun (start 7 0) [4, 3, 2, 1, 0] =
        some (s', [4, 3, 2, 1].map fun life => LifeDisp ++ [BLANK, Digit.getD life 0]) ∧
      s'.mode = Mode.over ∧ s'.MQueue = (start 7 0).MQueue + 4 ∧
      ∀ more, wdRun s' more = some (s', []) :=
  ⟨rfl, by decide, rfl, by decide,
    C4_five_misses_show_four_lives_then_game_over (start 7 0) 0 rfl (by decide) rfl (by decide)⟩

/-! ## slideFnd -/

theorem slideFnd_guard (str : List Nat) (len time : Nat) (h : BUF_SIZE < len + PADDING * 2)
    (hw : len + PADDING * 2 < 256) : slideFnd str len time = ⟨[], []⟩ := by
  unfold slideFnd
  simp only [Nat.mod_eq_of_lt hw]
  rw [if_pos h]

set_option maxRecDepth 100000 in
/-- C8, the failing input: for len = 250 the padded length 256 exceeds
BUF_SIZE, but the INT8U newlen is 0, the guard lets the call through, and
the copy loop stores 250 bytes into slide, among them one at index 252, far
past the sixteen cells of the array.  For len = 254 newlen is 4 and the call
also writes to the ports. -/
theorem C8_wrapped_length_passes_guard :
    BUF_SIZE < 250 + PADDING * 2 ∧
    (slideFnd (List.replicate 250 0x79) 250 SLIDE_FAST).stores.length = 250 ∧
    (252, 0x79) ∈ (slideFnd (List.replicate 250 0x79) 250 SLIDE_FAST).stores ∧
    ¬ (252 < BUF_SIZE) ∧
    BUF_SIZE < 254 + PADDING * 2 ∧
    (slideFnd (List.replicate 254 0x79) 254 1).tr.take 3 =
      [Ev.portA 0x01, Ev.portC 0x00, Ev.portG 0x08] := by
  decide

/-! ## A round without a push of the button -/

theorem ledStep_quiet (l n : Nat) (t : Tally) (x : Input) (hQ : Sweeping l n t) (hn : n < 42)
    (hp : x.press = false) (hq : x.pause = false) :
    ∃ t', ledStep t x = some t' ∧ Sweeping l (n + 1) t' := by
  obtain ⟨q1, q2, q3, q4, q5, q6, q7, q8⟩ := hQ
  obtain ⟨-, elife, eidx, elt, -, -, -, -, -⟩ := env_frame t.st x
  obtain ⟨e1, e2⟩ := env_quiet t.st x hp hq
  rw [q1] at e1
  rw [q2] at e2
  have hi : t.st.orderIdx ≤ 14 := by omega
  obtain ⟨o, ho⟩ := order_lookup (env t.st x).orderIdx (by rw [eidx]; exact hi)
  have htick := ledTick_sweep (env t.st x) x.rand o e2 e1 ho
  obtain ⟨-, -, -, -, f1, f2, -, -⟩ := ledSweep_frame (ledFlags (env t.st x)) o x.rand
  simp only [ledFlags_Sw1, ledFlags_Sw2] at f1 f2
  have hmiss : isMiss (env t.st x) = false := by simp [isMiss, e1]
  unfold ledStep
  rw [htick]
  by_cases hend : t.st.orderIdx = 14
  · have hinc : u8inc (ledFlags (env t.st x)).orderIdx = CYCLE_END := by
      rw [ledFlags_orderIdx, eidx, hend]; rfl
    have hlt : t.st.left_time = 3 ∨ t.st.left_time = 2 := by omega
    have hdec : u8dec (ledFlags (env t.st x)).left_time ≠ 0 := by
      rw [ledFlags_left_time, elt]
      unfold u8dec
      omega
    obtain ⟨s1, s2, s3, s4, -⟩ := ledSweep_turn (ledFlags (env t.st x)) o x.rand hinc hdec
    rw [ledFlags_left_time, elt] at s3
    rw [ledFlags_life, elife] at s4
    have hto : isTimeout (env t.st x) = false := by
      have : u8dec (env t.st x).left_time ≠ 0 := by simpa using hdec
      simp [isTimeout, this]
    refine ⟨_, rfl, ?_⟩
    refine ⟨by rw [f1, e1], by rw [f2, e2], by rw [s4, q3], ?_, ?_, ?_, ?_, ?_⟩
    · show t.posts ++ posted _ = []
      simp [posted, s1, q4]
    · show bump t.losses (isLoss (env t.st x)) = 0
      simp [bump, isLoss, hmiss, hto, q5]
    · intro h; omega
    · intro ha hb
      show (ledSweep _ o x.rand).st.orderIdx = n + 1 - 14 ∧ (ledSweep _ o x.rand).st.left_time = 2
      rw [s2, s3]
      unfold u8dec CYCLE_BEGIN
      omega
    · intro ha
      show (ledSweep _ o x.rand).st.orderIdx = n + 1 - 28 ∧ (ledSweep _ o x.rand).st.left_time = 1
      rw [s2, s3]
      unfold u8dec CYCLE_BEGIN
      omega
  · have hinc : u8inc (ledFlags (env t.st x)).orderIdx ≠ CYCLE_END := by
      rw [ledFlags_orderIdx, eidx]
      unfold u8inc CYCLE_END
      omega
    obtain ⟨s1, s2, s3, s4, -⟩ := ledSweep_inside (ledFlags (env t.st x)) o x.rand hinc
    rw [ledFlags_orderIdx, eidx] at s2
    rw [ledFlags_left_time, elt] at s3
    rw [ledFlags_life, elife] at s4
    have hto : isTimeout (env t.st x) = false := by
      have : u8inc (env t.st x).orderIdx ≠ CYCLE_END := by simpa using hinc
      simp [isTimeout, this]
    refine ⟨_, rfl, ?_⟩
    refine ⟨by rw [f1, e1], by rw [f2, e2], by rw [s4, q3], ?_, ?_, ?_, ?_, ?_⟩
    · show t.posts ++ posted _ = []
      simp [posted, s1, q4]
    · show bump t.losses (isLoss (env t.st x)) = 0
      simp [bump, isLoss, hmiss, hto, q5]
    · intro h
      show (ledSweep _ o x.rand).st.orderIdx = n + 1 ∧ (ledSweep _ o x.rand).st.left_time = 3
      rw [s2, s3]
      unfold u8inc
      omega
    · intro ha hb
      show (ledSweep _ o x.rand).st.orderIdx = n + 1 - 14 ∧ (ledSweep _ o x.rand).st.left_time = 2
      rw [s2, s3]
      unfold u8inc
      omega
    · intro ha
      show (ledSweep _ o x.rand).st.orderIdx = n + 1 - 28 ∧ (ledSweep _ o x.rand).st.left_time = 1
      rw [s2, s3]
      unfold u8inc
      omega

theorem ledStep_quiet_last (l : Nat) (t : Tally) (x : Input) (hQ : Sweeping l 42 t)
    (hp : x.press = false) (hq : x.pause = false) :
    ∃ t', ledStep t x = some t' ∧ t'.posts = [u8dec l] ∧ t'.losses = 1 ∧
      t'.st.life = u8dec l ∧ t'.st.left_time = DEADLINE ∧ t'.st.orderIdx = CYCLE_BEGIN := by
  obtain ⟨q1, q2, q3, q4, q5, -, -, q8⟩ := hQ
  obtain ⟨hq8a, hq8b⟩ := q8 (by decide)
  obtain ⟨-, elife, eidx, elt, -, -, -, -, -⟩ := env_frame t.st x
  obtain ⟨e1, e2⟩ := env_quiet t.st x hp hq
  rw [q1] at e1
  rw [q2] at e2
  obtain ⟨o, ho⟩ := order_lookup (env t.st x).orderIdx (by rw [eidx, hq8a])
  have htick := ledTick_sweep (env t.st x) x.rand o e2 e1 ho
  have hinc : u8inc (ledFlags (env t.st x)).orderIdx = CYCLE_END := by
    rw [ledFlags_orderIdx, eidx, hq8a]; rfl
  have hdec : u8dec (ledFlags (env t.st x)).left_time = 0 := by
    rw [ledFlags_left_time, elt, hq8b]; rfl
  obtain ⟨⟨p, s1, s1l, -⟩, s2, s3, s4, -⟩ :=
    ledSweep_timeout (ledFlags (env t.st x)) o x.rand hinc hdec
  rw [ledFlags_life, elife, q3] at s4 s1l
  have hto : isTimeout (env t.st x) = true := by
    have h1 : u8inc (env t.st x).orderIdx = CYCLE_END := by simpa using hinc
    have h2 : u8dec (env t.st x).left_time = 0 := by simpa using hdec
    simp [isTimeout, e1, e2, h1, h2]
  unfold ledStep
  rw [htick]
  refine ⟨_, rfl, ?_, ?_, s4, s3, s2⟩
  · show t.posts ++ posted _ = [u8dec l]
    simp [posted, s1, q4, s1l]
  · show bump t.losses (isLoss (env t.st x)) = 1
    simp [bump, isLoss, hto, q5]

theorem ledFold_quiet (l : Nat) (xs : List Input) :
    ∀ (t : Tally) (n : Nat), Sweeping l n t → n + xs.length ≤ 42 →
      (∀ x ∈ xs, x.press = false ∧ x.pause = false) →
      ∃ t', xs.foldlM ledStep t = some t' ∧ Sweeping l (n + xs.length) t' := by
  induction xs with
  | nil => intro t n h _ _; exact ⟨t, rfl, h⟩
  | cons x xs ih =>
    intro t n h hlen hq
    simp only [List.length_cons] at hlen
    obtain ⟨hp1, hq1⟩ := hq x (List.mem_cons_self x xs)
    obtain ⟨t1, h1, hS1⟩ := ledStep_quiet l n t x h (by omega) hp1 hq1
    obtain ⟨t2, h2, hS2⟩ := ih t1 (n + 1) hS1 (by omega)
      (fun y hy => hq y (List.mem_cons_of_mem x hy))
    refine ⟨t2, ?_, ?_⟩
    · rw [List.foldlM_cons, h1]
      exact h2
    · have : n + (x :: xs).length = n + 1 + xs.length := by
        simp only [List.length_cons]; omega
      rw [this]
      exact hS2

/-- C9: from a fresh round (sweep index 0, deadline 3), not paused and with
no push of the button, the first 42 passes of LedTask post nothing and keep
life; the sweep index counts 1 to 14, is back at 1 after the passes 15 and 29
(where it reached CYCLE_END), and the deadline goes 3, 2, 1 at these passes;
pass 43 is the timeout: life is decremented and posted, the deadline is back
at 3 and the sweep index at 0. -/
theorem C9_timeout_exactly_on_pass_43 (s : Game) (xs : List Input)
    (hidx : s.orderIdx = CYCLE_BEGIN) (hlt : s.left_time = DEADLINE)
    (h1 : s.Sw1 = OFF) (h2 : s.Sw2 = OFF)
    (hq : ∀ x ∈ xs, x.press = false ∧ x.pause = false) (hlen : xs.length ≤ 43) :
    ∃ t, ledRun s xs = some t ∧
      (xs.length < 43 → t.posts = [] ∧ t.losses = 0 ∧ t.st.life = s.life) ∧
      (xs.length < 15 → t.st.orderIdx = xs.length ∧ t.st.left_time = 3) ∧
      (15 ≤ xs.length → xs.length < 29 →
        t.st.orderIdx = xs.length - 14 ∧ t.st.left_time = 2) ∧
      (29 ≤ xs.length → xs.length < 43 →
        t.st.orderIdx = xs.length - 28 ∧ t.st.left_time = 1) ∧
      (xs.length = 43 → t.posts = [u8dec s.life] ∧ t.losses = 1 ∧
        t.st.life = u8dec s.life ∧ t.st.left_time = DEADLINE ∧
        t.st.orderIdx = CYCLE_BEGIN) := by
  have h0 : Sweeping s.life 0 ⟨s, 0, 0, []⟩ := by
    refine ⟨h1, h2, rfl, rfl, rfl, ?_, ?_, ?_⟩
    · intro _; exact ⟨hidx, hlt⟩
    · intro h; omega
    · intro h; omega
  by_cases h43 : xs.length = 43
  · have hne : xs ≠ [] := by
      intro hnil
      rw [hnil] at h43
      simp at h43
    have hsplit := List.dropLast_append_getLast hne
    have hdl : xs.dropLast.length = 42 := by
      rw [List.length_dropLast, h43]
    obtain ⟨t, ht, hS⟩ := ledFold_quiet s.life xs.dropLast ⟨s, 0, 0, []⟩ 0 h0 (by omega)
      (fun y hy => hq y (List.mem_of_mem_dropLast hy))
    rw [hdl] at hS
    obtain ⟨hpl, hql⟩ := hq (xs.getLast hne) (List.getLast_mem hne)
    obtain ⟨t', ht', r1, r2, r3, r4, r5⟩ := ledStep_quiet_last s.life t _ hS hpl hql
    refine ⟨t', ?_, ?_, ?_, ?_, ?_, ?_⟩
    · unfold ledRun
      rw [← hsplit, List.foldlM_append, ht]
      show ledStep t _ >>= (fun b => [].foldlM ledStep b) = some t'
      rw [ht']
      rfl
    · intro h; omega
    · intro h; omega
    · intro _ h; omega
    · intro _ h; omega
    · intro _; exact ⟨r1, r2, r3, r4, r5⟩
  · obtain ⟨t, ht, hS⟩ := ledFold_quiet s.life xs ⟨s, 0, 0, []⟩ 0 h0 (by omega) hq
    rw [Nat.zero_add] at hS
    obtain ⟨-, -, q3, q4, q5, q6, q7, q8⟩ := hS
    refine ⟨t, ht, ?_, q6, q7, ?_, ?_⟩
    · intro _; exact ⟨q4, q5, q3⟩
    · intro ha _; exact q8 ha
    · intro h; exact absurd h h43

/-- Witness of C9: forty-three quiet passes from the start of a game. -/
theorem C9_witness :
    (start 7 0).orderIdx = CYCLE_BEGIN ∧ (start 7 0).left_time = DEADLINE ∧
    (start 7 0).Sw1 = OFF ∧ (start 7 0).Sw2 = OFF ∧
    (∀ x ∈ quietRound, x.press = false ∧ x.pause = false) ∧ quietRound.length ≤ 43 ∧
    ∃ t, ledRun (start 7 0) quietRound = some t ∧
      t.posts = [4] ∧ t.losses = 1 ∧ t.st.life = 4 ∧ t.st.left_time = DEADLINE ∧
      t.st.orderIdx = CYCLE_BEGIN := by
  have hq : ∀ x ∈ quietRound, x.press = false ∧ x.pause = false := by
    intro x hx
    rw [List.eq_of_mem_replicate hx]
    exact ⟨rfl, rfl⟩
  refine ⟨rfl, rfl, rfl, rfl, hq, by decide, ?_⟩
  obtain ⟨t, ht, -, -, -, -, h⟩ :=
    C9_timeout_exactly_on_pass_43 (start 7 0) quietRound rfl rfl rfl rfl hq (by decide)
  exact ⟨t, ht, h (by decide)⟩

end HitTheToken
